import Mathlib

/-!
Silicon Labs Gecko USART SPI driver (drivers/spi/spi_gecko.c).

A shallow embedding of the driver's helper and API functions, and theorems
about them.

* Machine integers are natural numbers with an explicit reduction modulo
  `2 ^ 32` (registers) or `256` (`u8_t`).
* The register block is a record of the plain read/write registers together
  with the history of every register access made so far.  The two registers
  whose value is produced by the peripheral (`STATUS`, `RXDATA`) are read
  through a `Hardware` value, which gives the value of a read as a function of
  the block (registers and access history).
* The busy wait of `spi_gecko_send` is a loop without a bound; it is embedded
  with a poll budget and returns `none` when the budget is used up.
* Conditions on the peripheral are stated on the values of `STATUS` that
  successive polls observe (`statusAt`), not on the functions of the driver.
* The helpers of `spi_context.h` and `USART_Tx` are not part of the sources at
  hand; their definitions follow the specification and say so.
-/

namespace SpiGecko

/-! ## Values taken from headers outside the driver file -/

/-- Values of the preprocessor constants the driver uses and which are defined
in headers outside the driver file (`drivers/spi.h`, `em_usart.h`, `errno.h`).
They are parameters of the embedding. -/
structure Header where
  ENOTSUP : Nat
  EBUSY : Nat
  SPI_WORD_SIZE_GET : Nat → Nat
  SPI_OP_MODE_SLAVE : Nat
  SPI_MODE_CPOL : Nat
  SPI_MODE_CPHA : Nat
  SPI_MODE_LOOP : Nat
  SPI_TRANSFER_LSB : Nat
  SPI_LINES_SINGLE : Nat
  SPI_LINES_MASK : Nat
  SPI_LOCK_ON : Nat
  SPI_CS_ACTIVE_HIGH : Nat
  USART_CTRL_LOOPBK : Nat
  USART_CTRL_AUTOCS : Nat
  USART_FRAME_STOPBITS_DEFAULT : Nat
  USART_FRAME_PARITY_DEFAULT : Nat
  USART_STATUS_TXC : Nat
  USART_STATUS_TXIDLE : Nat
  USART_ROUTELOC0_TXLOC_SHIFT : Nat
  USART_ROUTELOC0_RXLOC_SHIFT : Nat
  USART_ROUTELOC0_CLKLOC_SHIFT : Nat
  USART_ROUTELOC0_CSLOC_SHIFT : Nat
  USART_ROUTELOC1_RESETVALUE : Nat
  USART_ROUTEPEN_RXPEN : Nat
  USART_ROUTEPEN_TXPEN : Nat
  USART_ROUTEPEN_CLKPEN : Nat
  USART_ROUTEPEN_CSPEN : Nat

/-- The header values of the EFR32/EFM32 series 1 parts and of Zephyr's SPI
API, used to evaluate the embedding on concrete inputs. -/
def gecko : Header where
  ENOTSUP := 134
  EBUSY := 16
  SPI_WORD_SIZE_GET := fun op => (op &&& 0x7E0) >>> 5
  SPI_OP_MODE_SLAVE := 0x1
  SPI_MODE_CPOL := 0x2
  SPI_MODE_CPHA := 0x4
  SPI_MODE_LOOP := 0x8
  SPI_TRANSFER_LSB := 0x10
  SPI_LINES_SINGLE := 0
  SPI_LINES_MASK := 0x1800
  SPI_LOCK_ON := 0x4000
  SPI_CS_ACTIVE_HIGH := 0x8000
  USART_CTRL_LOOPBK := 0x2
  USART_CTRL_AUTOCS := 0x10000
  USART_FRAME_STOPBITS_DEFAULT := 0x1000
  USART_FRAME_PARITY_DEFAULT := 0
  USART_STATUS_TXC := 0x20
  USART_STATUS_TXIDLE := 0x2000
  USART_ROUTELOC0_TXLOC_SHIFT := 8
  USART_ROUTELOC0_RXLOC_SHIFT := 0
  USART_ROUTELOC0_CLKLOC_SHIFT := 24
  USART_ROUTELOC0_CSLOC_SHIFT := 16
  USART_ROUTELOC1_RESETVALUE := 0
  USART_ROUTEPEN_RXPEN := 0x1
  USART_ROUTEPEN_TXPEN := 0x2
  USART_ROUTEPEN_CLKPEN := 0x8
  USART_ROUTEPEN_CSPEN := 0x4

/-- The constant `SPI_MAX_CS_SIZE` of the driver. -/
def SPI_MAX_CS_SIZE : Nat := 3

/-- The constant `SPI_WORD_SIZE` of the driver. -/
def SPI_WORD_SIZE : Nat := 8

/-- Reduction of a value to the width of a 32-bit register. -/
def u32 (x : Nat) : Nat := x % 2 ^ 32

/-- Reduction of a value to the width of `u8_t`. -/
def u8 (x : Nat) : Nat := x % 256

/-- Bitwise complement of a 32-bit value (the C operator `~` on `uint32_t`). -/
def not32 (x : Nat) : Nat := 0xFFFFFFFF ^^^ u32 x

/-! ## Data model -/

/-- The registers of the USART block that the driver accesses. -/
inductive Reg where
  | CTRL | FRAME | STATUS | RXDATA | TXDATA | ROUTEPEN | ROUTELOC0 | ROUTELOC1 | CMD
  deriving DecidableEq, Repr

/-- One access to a register of the block. -/
inductive Access where
  | read (r : Reg) (v : Nat)
  | write (r : Reg) (v : Nat)
  deriving DecidableEq, Repr

/-- The register block `USART_TypeDef`: the current value of the plain
read/write registers, and the history of all accesses (oldest first). -/
structure USART_TypeDef where
  CTRL : Nat
  FRAME : Nat
  ROUTEPEN : Nat
  ROUTELOC0 : Nat
  ROUTELOC1 : Nat
  CMD : Nat
  log : List Access
  deriving DecidableEq, Repr

/-- The peripheral behind the register block: the value that a read of
`STATUS` and a read of `RXDATA` returns, given the block. -/
structure Hardware where
  STATUS : USART_TypeDef → Nat
  RXDATA : USART_TypeDef → Nat

/-- The fields of `struct spi_config` (drivers/spi.h) that the driver reads. -/
structure struct_spi_config where
  frequency : Nat
  operation : Nat
  slave : Nat
  deriving DecidableEq, Repr

/-- One `struct spi_buf`: the memory the pointer `buf` refers to, indexed from
the pointer, and the length `len`. -/
structure spi_buf where
  buf : Nat → Nat
  len : Nat

/-- One `struct spi_buf_set`: the array `buffers`; `count` is its length. -/
structure spi_buf_set where
  buffers : List spi_buf

/-- The fields of `struct spi_context` (spi_context.h) used by the driver and
named by the specification: the current buffers and their lengths, the
completion status, the guard (`lock_held`) and the completion signal.  The transmit and the
receive buffer are separate regions of memory, each indexed from its pointer. -/
structure spi_context where
  tx_buf : Nat → Nat
  tx_len : Nat
  rx_buf : Nat → Nat
  rx_len : Nat
  sync_status : Int
  lock_held : Bool
  completed : Bool

/-- A device instance: the register block and pin locations of
`struct spi_gecko_config`, the transfer context of `struct spi_gecko_data`,
and the messages emitted through `LOG_ERR`. -/
structure device where
  base : USART_TypeDef
  loc_rx : Nat
  loc_tx : Nat
  loc_clk : Nat
  loc_cs : Nat
  ctx : spi_context
  errlog : List String

/-! ## Register access -/

/-- The plain registers of two blocks hold the same values. -/
def USART_TypeDef.sameRegs (a b : USART_TypeDef) : Prop :=
  a.CTRL = b.CTRL ∧ a.FRAME = b.FRAME ∧ a.ROUTEPEN = b.ROUTEPEN ∧
  a.ROUTELOC0 = b.ROUTELOC0 ∧ a.ROUTELOC1 = b.ROUTELOC1 ∧ a.CMD = b.CMD

/-- Record an access in the history of the block. -/
def USART_TypeDef.note (u : USART_TypeDef) (a : Access) : USART_TypeDef :=
  { u with log := u.log ++ [a] }

/-- Store to `CTRL`. -/
def USART_TypeDef.setCTRL (u : USART_TypeDef) (v : Nat) : USART_TypeDef :=
  { u with CTRL := u32 v, log := u.log ++ [Access.write Reg.CTRL (u32 v)] }

/-- Load from `CTRL`: the value and the block with the access recorded. -/
def USART_TypeDef.getCTRL (u : USART_TypeDef) : Nat × USART_TypeDef :=
  (u.CTRL, u.note (Access.read Reg.CTRL u.CTRL))

/-- Store to `FRAME`. -/
def USART_TypeDef.setFRAME (u : USART_TypeDef) (v : Nat) : USART_TypeDef :=
  { u with FRAME := u32 v, log := u.log ++ [Access.write Reg.FRAME (u32 v)] }

/-- Store to `ROUTEPEN`. -/
def USART_TypeDef.setROUTEPEN (u : USART_TypeDef) (v : Nat) : USART_TypeDef :=
  { u with ROUTEPEN := u32 v, log := u.log ++ [Access.write Reg.ROUTEPEN (u32 v)] }

/-- Store to `ROUTELOC0`. -/
def USART_TypeDef.setROUTELOC0 (u : USART_TypeDef) (v : Nat) : USART_TypeDef :=
  { u with ROUTELOC0 := u32 v, log := u.log ++ [Access.write Reg.ROUTELOC0 (u32 v)] }

/-- Store to `ROUTELOC1`. -/
def USART_TypeDef.setROUTELOC1 (u : USART_TypeDef) (v : Nat) : USART_TypeDef :=
  { u with ROUTELOC1 := u32 v, log := u.log ++ [Access.write Reg.ROUTELOC1 (u32 v)] }

/-- The `LOG_ERR` of the logging subsystem: the message is appended to the
messages of the device. -/
def LOG_ERR (dev : device) (msg : String) : device :=
  { dev with errlog := dev.errlog ++ [msg] }

/-- The byte of an access that is a write to `TXDATA`. -/
def Access.txByte : Access → Option Nat
  | Access.write Reg.TXDATA v => some v
  | _ => none

/-- The value of an access that is a read of `RXDATA`. -/
def Access.rxValue : Access → Option Nat
  | Access.read Reg.RXDATA v => some v
  | _ => none

/-- The bytes written to `TXDATA`, oldest first. -/
def txWrites (l : List Access) : List Nat := l.filterMap Access.txByte

/-- The values read from `RXDATA`, oldest first. -/
def rxReads (l : List Access) : List Nat := l.filterMap Access.rxValue

/-! ## Helper functions of the driver -/

/-- The function `spi_config` of the driver.  The checks are made in the order
of the source; each failing check logs its message and returns `-ENOTSUP`.
The local `cs` is assigned and never used, and the parameter `control` is
never written, so neither appears.  The result is the returned `int` and the
device afterwards. -/
def spi_config (k : Header) (dev : device) (config : struct_spi_config) : Int × device :=
  if config.slave ≠ 0 ∧ config.slave ≥ SPI_MAX_CS_SIZE then
    (-(k.ENOTSUP : Int), LOG_ERR dev "More slaves than supported")
  else if k.SPI_WORD_SIZE_GET config.operation ≠ 8 then
    (-(k.ENOTSUP : Int), LOG_ERR dev "Word size must be 8")
  else if config.operation &&& k.SPI_CS_ACTIVE_HIGH ≠ 0 then
    (-(k.ENOTSUP : Int), LOG_ERR dev "CS active high not supported")
  else if config.operation &&& k.SPI_LOCK_ON ≠ 0 then
    (-(k.ENOTSUP : Int), LOG_ERR dev "Lock On not supported")
  else if config.operation &&& k.SPI_LINES_MASK ≠ k.SPI_LINES_SINGLE then
    (-(k.ENOTSUP : Int), LOG_ERR dev "Only supports single mode")
  else if config.operation &&& k.SPI_TRANSFER_LSB ≠ 0 then
    (-(k.ENOTSUP : Int), LOG_ERR dev "LSB first not supported")
  else if config.operation &&& (k.SPI_MODE_CPOL ||| k.SPI_MODE_CPHA) ≠ 0 then
    (-(k.ENOTSUP : Int), LOG_ERR dev "Only supports CPOL=CPHA=0")
  else if config.operation &&& k.SPI_OP_MODE_SLAVE ≠ 0 then
    (-(k.ENOTSUP : Int), LOG_ERR dev "Slave mode not supported")
  else
    -- Set Loopback
    let r1 := dev.base.getCTRL
    let b1 :=
      if config.operation &&& k.SPI_MODE_LOOP ≠ 0 then
        r1.2.setCTRL (r1.1 ||| k.USART_CTRL_LOOPBK)
      else
        r1.2.setCTRL (r1.1 &&& not32 k.USART_CTRL_LOOPBK)
    -- Set word size
    let b2 := b1.setFRAME (u32 (k.SPI_WORD_SIZE_GET config.operation)
                 ||| k.USART_FRAME_STOPBITS_DEFAULT
                 ||| k.USART_FRAME_PARITY_DEFAULT)
    -- Enable automatic chip select
    let r3 := b2.getCTRL
    let b3 := r3.2.setCTRL (r3.1 ||| k.USART_CTRL_AUTOCS)
    (0, { dev with base := b3 })

/-- Modelled from the spec: `USART_Tx` of the vendor library, which is missing
from the sources ("write byte to hardware data register").  The byte is stored
to `TXDATA`. -/
def USART_Tx (u : USART_TypeDef) (data : Nat) : USART_TypeDef :=
  u.note (Access.write Reg.TXDATA (u8 data))

/-- The busy wait `while (!(config->base->STATUS & USART_STATUS_TXC));` of
`spi_gecko_send`.  Every iteration reads `STATUS`.  The loop of the source has
no bound; here `polls` is the number of reads allowed, and the result is
`none` when that many reads have not seen the bit. -/
def wait_txc (k : Header) (hw : Hardware) : Nat → USART_TypeDef → Option USART_TypeDef
  | 0, _ => none
  | polls + 1, u =>
    let v := hw.STATUS u
    let u1 := u.note (Access.read Reg.STATUS v)
    if v &&& k.USART_STATUS_TXC ≠ 0 then some u1 else wait_txc k hw polls u1

/-- The function `spi_gecko_send` of the driver: write the frame, then wait
until the transfer ends.  The parameter `control` is not used by the source. -/
def spi_gecko_send (k : Header) (hw : Hardware) (polls : Nat) (dev : device)
    (frame : Nat) (_control : Nat) : Option device :=
  (wait_txc k hw polls (USART_Tx dev.base frame)).map
    (fun b => { dev with base := b })

/-- The function `spi_gecko_recv` of the driver: the value of `RXDATA`
converted to `u8_t`, and the block with the read recorded. -/
def spi_gecko_recv (hw : Hardware) (usart : USART_TypeDef) : Nat × USART_TypeDef :=
  let v := hw.RXDATA usart
  (u8 v, usart.note (Access.read Reg.RXDATA v))

/-- Modelled from the spec: `spi_context_longest_current_buf` of
`spi_context.h`, which is missing from the sources ("`longestLength()` returns
max(txLength, rxLength) — the number of frames the engine must clock"). -/
def spi_context_longest_current_buf (ctx : spi_context) : Nat :=
  max ctx.tx_len ctx.rx_len

/-- Modelled from the spec: `spi_context_complete` of `spi_context.h`, which
is missing from the sources ("marks the transaction finished, records the
status, and releases any blocked waiter"; a caller blocked in `setup` waits
"until the holder calls `complete`").  The status is recorded, the transaction
is marked finished and the guard is released. -/
def spi_context_complete (ctx : spi_context) (status : Int) : spi_context :=
  { ctx with sync_status := status, completed := true, lock_held := false }

/-- Modelled from the spec: `spi_context_buffers_setup` of `spi_context.h`,
which is missing from the sources ("records buffer references/lengths for the
current transaction"; "single buffer-pair transactions only"; "a second caller
attempting `setup` while one is in flight must block until the holder calls
`complete`").  While the guard is held the call blocks: in this sequential
embedding, where no other caller can release the guard, it does not return
(`none`).  With the guard free the call takes the guard and records the
reference and length of the first pair of each set; a set that is absent or
has no pair gives length 0. -/
def spi_context_buffers_setup (ctx : spi_context)
    (tx_bufs rx_bufs : Option spi_buf_set) (_n : Nat) : Option spi_context :=
  if ctx.lock_held then none
  else
    let tx := tx_bufs.bind (fun s => s.buffers.head?)
    let rx := rx_bufs.bind (fun s => s.buffers.head?)
    some { ctx with
      lock_held := true
      tx_buf := match tx with | some b => b.buf | none => fun _ => 0
      tx_len := match tx with | some b => b.len | none => 0
      rx_buf := match rx with | some b => b.buf | none => fun _ => 0
      rx_len := match rx with | some b => b.len | none => 0 }

/-- The body of the `for` loop of `spi_gecko_xfer` at index `i`: send a frame
(the byte of the transmit buffer, or a dummy byte), receive a frame, and store
it when the index is inside the receive buffer. -/
def xfer_frame (k : Header) (hw : Hardware) (polls : Nat) (control : Nat)
    (i : Nat) (dev : device) : Option device :=
  (if i < dev.ctx.tx_len then
      spi_gecko_send k hw polls dev (u8 (dev.ctx.tx_buf i)) control
    else
      spi_gecko_send k hw polls dev 0 control).map
    (fun d =>
      let r := spi_gecko_recv hw d.base
      if i < d.ctx.rx_len then
        { d with base := r.2,
                 ctx := { d.ctx with
                          rx_buf := fun j => if j = i then r.1 else d.ctx.rx_buf j } }
      else
        { d with base := r.2 })

/-- The loop `for (u32_t i = 0; i < send_len; i++)` of `spi_gecko_xfer`, from
index `i` with `n = send_len - i` iterations left. -/
def xfer_loop (k : Header) (hw : Hardware) (polls : Nat) (control : Nat) :
    Nat → Nat → device → Option device
  | 0, _, dev => some dev
  | n + 1, i, dev =>
    (xfer_frame k hw polls control i dev).bind (xfer_loop k hw polls control n (i + 1))

/-- The function `spi_gecko_xfer` of the driver. -/
def spi_gecko_xfer (k : Header) (hw : Hardware) (polls : Nat) (dev : device)
    (_config : struct_spi_config) (control : Nat) : Option device :=
  let send_len := spi_context_longest_current_buf dev.ctx
  (xfer_loop k hw polls control send_len 0 dev).map
    (fun d => { d with ctx := spi_context_complete d.ctx 0 })

/-- The register writes of `spi_gecko_init_pins`, after the four calls of
`soc_gpio_configure` (which act on the GPIO block, not on this one). -/
def spi_gecko_init_pins (k : Header) (dev : device) : device :=
  -- disable all pins while configuring
  let b1 := dev.base.setROUTEPEN 0
  let b2 := b1.setROUTELOC0
    ((dev.loc_tx <<< k.USART_ROUTELOC0_TXLOC_SHIFT) |||
     (dev.loc_rx <<< k.USART_ROUTELOC0_RXLOC_SHIFT) |||
     (dev.loc_clk <<< k.USART_ROUTELOC0_CLKLOC_SHIFT) |||
     (dev.loc_cs <<< k.USART_ROUTELOC0_CSLOC_SHIFT))
  let b3 := b2.setROUTELOC1 k.USART_ROUTELOC1_RESETVALUE
  let b4 := b3.setROUTEPEN (k.USART_ROUTEPEN_RXPEN ||| k.USART_ROUTEPEN_TXPEN |||
    k.USART_ROUTEPEN_CLKPEN ||| k.USART_ROUTEPEN_CSPEN)
  { dev with base := b4 }

/-! ## API functions of the driver -/

/-- The function `spi_gecko_transceive` of the driver.  The value returned by
`spi_config` is not looked at by the source; the function returns 0 once the
transfer has ended.  The result is `none` when the call does not return: the
buffer setup blocks, or a busy wait uses up its polls. -/
def spi_gecko_transceive (k : Header) (hw : Hardware) (polls : Nat) (dev : device)
    (config : struct_spi_config) (tx_bufs rx_bufs : Option spi_buf_set) :
    Option (Int × device) :=
  let control := 0
  let dev1 := (spi_config k dev config).2
  (spi_context_buffers_setup dev1.ctx tx_bufs rx_bufs 1).bind (fun ctx =>
    (spi_gecko_xfer k hw polls { dev1 with ctx := ctx } config control).map
      (fun d => ((0 : Int), d)))

/-- The function `spi_gecko_release` of the driver: one read of `STATUS`. -/
def spi_gecko_release (k : Header) (hw : Hardware) (dev : device)
    (_config : struct_spi_config) : Int × device :=
  let v := hw.STATUS dev.base
  let dev1 := { dev with base := dev.base.note (Access.read Reg.STATUS v) }
  if v &&& k.USART_STATUS_TXIDLE = 0 then
    (-(k.EBUSY : Int), dev1)
  else
    (0, dev1)

/-! ## Descriptors -/

/-- A descriptor is supported: chip-select index in 0..2, word size 8,
chip-select active-low, lock off, single line, MSB-first, clock polarity and
phase both 0, master role. -/
def Supported (k : Header) (c : struct_spi_config) : Prop :=
  c.slave < 3 ∧
  k.SPI_WORD_SIZE_GET c.operation = 8 ∧
  c.operation &&& k.SPI_CS_ACTIVE_HIGH = 0 ∧
  c.operation &&& k.SPI_LOCK_ON = 0 ∧
  c.operation &&& k.SPI_LINES_MASK = k.SPI_LINES_SINGLE ∧
  c.operation &&& k.SPI_TRANSFER_LSB = 0 ∧
  (c.operation &&& k.SPI_MODE_CPOL = 0 ∧ c.operation &&& k.SPI_MODE_CPHA = 0) ∧
  c.operation &&& k.SPI_OP_MODE_SLAVE = 0

instance (k : Header) (c : struct_spi_config) : Decidable (Supported k c) := by
  unfold Supported; infer_instance

/-- The loopback flag of a descriptor is requested. -/
def LoopRequested (k : Header) (c : struct_spi_config) : Prop :=
  c.operation &&& k.SPI_MODE_LOOP ≠ 0

instance (k : Header) (c : struct_spi_config) : Decidable (LoopRequested k c) := by
  unfold LoopRequested; infer_instance

/-- The register constants fit a 32-bit register, the loopback bit and the
auto-chip-select bit are different bits, and the loopback bit is not empty. -/
def Header.RegBits (k : Header) : Prop :=
  k.USART_CTRL_LOOPBK < 2 ^ 32 ∧ k.USART_CTRL_AUTOCS < 2 ^ 32 ∧
  k.USART_CTRL_LOOPBK ≠ 0 ∧ k.USART_CTRL_LOOPBK &&& k.USART_CTRL_AUTOCS = 0 ∧
  k.USART_FRAME_STOPBITS_DEFAULT < 2 ^ 32 ∧ k.USART_FRAME_PARITY_DEFAULT < 2 ^ 32

instance (k : Header) : Decidable k.RegBits := by
  unfold Header.RegBits; infer_instance

/-- The control register after the register writes of `spi_config`. -/
def ctrlAfter (k : Header) (ctrl : Nat) (c : struct_spi_config) : Nat :=
  if c.operation &&& k.SPI_MODE_LOOP ≠ 0 then
    u32 (u32 (ctrl ||| k.USART_CTRL_LOOPBK) ||| k.USART_CTRL_AUTOCS)
  else
    u32 (u32 (ctrl &&& not32 k.USART_CTRL_LOOPBK) ||| k.USART_CTRL_AUTOCS)

/-- The rejection causes of the validator, in the order in which the
specification lists its checks. -/
inductive Cause where
  | cs_index | word_size | cs_polarity | lock_on | line_mode | bit_order | clock_mode | role
  deriving DecidableEq, Repr

/-- The first constraint, in the order of the specification, that a descriptor
violates; `none` for a supported descriptor. -/
def firstFailing (k : Header) (c : struct_spi_config) : Option Cause :=
  if ¬ c.slave < 3 then some Cause.cs_index
  else if ¬ k.SPI_WORD_SIZE_GET c.operation = 8 then some Cause.word_size
  else if ¬ c.operation &&& k.SPI_CS_ACTIVE_HIGH = 0 then some Cause.cs_polarity
  else if ¬ c.operation &&& k.SPI_LOCK_ON = 0 then some Cause.lock_on
  else if ¬ c.operation &&& k.SPI_LINES_MASK = k.SPI_LINES_SINGLE then some Cause.line_mode
  else if ¬ c.operation &&& k.SPI_TRANSFER_LSB = 0 then some Cause.bit_order
  else if ¬ (c.operation &&& k.SPI_MODE_CPOL = 0 ∧ c.operation &&& k.SPI_MODE_CPHA = 0) then
    some Cause.clock_mode
  else if ¬ c.operation &&& k.SPI_OP_MODE_SLAVE = 0 then some Cause.role
  else none

/-- The message that the driver logs for a rejection cause. -/
def causeMessage : Cause → String
  | Cause.cs_index => "More slaves than supported"
  | Cause.word_size => "Word size must be 8"
  | Cause.cs_polarity => "CS active high not supported"
  | Cause.lock_on => "Lock On not supported"
  | Cause.line_mode => "Only supports single mode"
  | Cause.bit_order => "LSB first not supported"
  | Cause.clock_mode => "Only supports CPOL=CPHA=0"
  | Cause.role => "Slave mode not supported"

/-- The operation word of a descriptor with word size 16. -/
def opWord16 : Nat := 16 <<< 5

/-- The operation word of a descriptor with word size 8 that is LSB-first. -/
def opWord8Lsb : Nat := (8 <<< 5) ||| 0x10

/-! ## One frame of the transfer -/

/-- The byte sent at index `i`: the byte of the transmit buffer inside the
transmit length, the dummy byte 0 outside. -/
def frameByte (ctx : spi_context) (i : Nat) : Nat :=
  if i < ctx.tx_len then u8 (ctx.tx_buf i) else 0

/-- The block at the moment `RXDATA` is read in frame `i`: the byte has been
written and `STATUS` has been read with the values `vs`. -/
def frameMid (dev : device) (i : Nat) (vs : List Nat) : USART_TypeDef :=
  { dev.base with
    log := dev.base.log ++
      (Access.write Reg.TXDATA (frameByte dev.ctx i) :: vs.map (Access.read Reg.STATUS)) }

/-- The device after frame `i`, when `STATUS` was read with the values `vs`. -/
def frameDone (hw : Hardware) (dev : device) (i : Nat) (vs : List Nat) : device :=
  { dev with
    base := (frameMid dev i vs).note (Access.read Reg.RXDATA (hw.RXDATA (frameMid dev i vs)))
    ctx :=
      if i < dev.ctx.rx_len then
        { dev.ctx with
          rx_buf := fun j => if j = i then u8 (hw.RXDATA (frameMid dev i vs)) else dev.ctx.rx_buf j }
      else dev.ctx }

/-- The peripheral loops back: while the loopback bit of `CTRL` is set, a read
of `RXDATA` returns the byte last written to `TXDATA`. -/
def LoopsBack (k : Header) (hw : Hardware) : Prop :=
  ∀ u : USART_TypeDef, u.CTRL &&& k.USART_CTRL_LOOPBK = k.USART_CTRL_LOOPBK →
    hw.RXDATA u = (txWrites u.log).getLastD 0

/-- Everything of the device except the access history and the content of
the receive buffer is the same in `d` and `e`. -/
def Kept (d e : device) : Prop :=
  e.base.sameRegs d.base ∧
  e.ctx.tx_buf = d.ctx.tx_buf ∧ e.ctx.tx_len = d.ctx.tx_len ∧ e.ctx.rx_len = d.ctx.rx_len ∧
  e.ctx.sync_status = d.ctx.sync_status ∧ e.ctx.lock_held = d.ctx.lock_held ∧
  e.ctx.completed = d.ctx.completed ∧ e.errlog = d.errlog ∧
  e.loc_rx = d.loc_rx ∧ e.loc_tx = d.loc_tx ∧ e.loc_clk = d.loc_clk ∧ e.loc_cs = d.loc_cs

/-! ## Concrete inputs -/

/-- A register block after reset, with no access made. -/
def base0 : USART_TypeDef :=
  { CTRL := 0, FRAME := 0, ROUTEPEN := 0, ROUTELOC0 := 0, ROUTELOC1 := 0, CMD := 0, log := [] }

/-- A context with no buffers. -/
def ctx0 : spi_context :=
  { tx_buf := fun _ => 0, tx_len := 0, rx_buf := fun _ => 0, rx_len := 0,
    sync_status := 0, lock_held := false, completed := false }

/-- A device instance after reset. -/
def dev0 : device :=
  { base := base0, loc_rx := 0, loc_tx := 0, loc_clk := 0, loc_cs := 0, ctx := ctx0,
    errlog := [] }

/-- A peripheral that reports transmit-complete and transmit-idle on every
read of `STATUS` and returns 0x5A on every read of `RXDATA`. -/
def hwReady : Hardware :=
  { STATUS := fun _ => 0x2020, RXDATA := fun _ => 0x5A }

/-- A context for a receive-only transfer of 4 bytes: transmit length 0,
receive length 4, the receive memory filled with 0xEE. -/
def ctxRx4 : spi_context :=
  { ctx0 with rx_buf := fun _ => 0xEE, rx_len := 4 }

/-- A context with transmit length 5 (bytes 1, 2, 3, 4, 5) and receive length
3, the receive memory filled with 0xEE. -/
def ctxTx5Rx3 : spi_context :=
  { ctx0 with tx_buf := fun i => i + 1, tx_len := 5, rx_buf := fun _ => 0xEE, rx_len := 3 }

/-- The operation word of a supported descriptor with the loopback flag. -/
def opWord8Loop : Nat := (8 <<< 5) ||| 0x8

/-- A buffer set with the single buffer `(buf, len)`. -/
def singleBuf (buf : Nat → Nat) (len : Nat) : Option spi_buf_set :=
  some { buffers := [{ buf := buf, len := len }] }

/-- A buffer set with one buffer that holds the bytes of a list. -/
def listBuf (l : List Nat) : Option spi_buf_set :=
  singleBuf (fun i => l.getD i 0) l.length

/-- The operation word of a supported descriptor: word size 8, everything
else 0. -/
def opWord8 : Nat := 8 <<< 5


/-! ## The register accesses of an accepted `spi_config` -/

/-- The control register after the loopback step of `spi_config`. -/
def ctrlMid (k : Header) (ctrl : Nat) (c : struct_spi_config) : Nat :=
  if c.operation &&& k.SPI_MODE_LOOP ≠ 0 then u32 (ctrl ||| k.USART_CTRL_LOOPBK)
  else u32 (ctrl &&& not32 k.USART_CTRL_LOOPBK)

/-- The frame register after the register writes of `spi_config`. -/
def frameAfter (k : Header) (c : struct_spi_config) : Nat :=
  u32 (u32 (k.SPI_WORD_SIZE_GET c.operation) ||| k.USART_FRAME_STOPBITS_DEFAULT
    ||| k.USART_FRAME_PARITY_DEFAULT)

/-- The register accesses of `spi_config` for an accepted descriptor, from the
prior value `ctrl` of the control register. -/
def configAccesses (k : Header) (ctrl : Nat) (c : struct_spi_config) : List Access :=
  [Access.read Reg.CTRL ctrl,
   Access.write Reg.CTRL (ctrlMid k ctrl c),
   Access.write Reg.FRAME (frameAfter k c),
   Access.read Reg.CTRL (ctrlMid k ctrl c),
   Access.write Reg.CTRL (ctrlAfter k ctrl c)]

/-- An access to one of the two data registers: a write of `TXDATA` or a read
of `RXDATA`. -/
def Access.isData : Access → Bool
  | Access.write Reg.TXDATA _ => true
  | Access.read Reg.RXDATA _ => true
  | _ => false

/-- The accesses to the data registers, oldest first. -/
def dataAccesses (l : List Access) : List Access := l.filter Access.isData

/-- The strictly interleaved sequence write, read, write, read, ... of the
bytes `bs` written to `TXDATA` and the values `vs` read from `RXDATA`. -/
def frameAccesses : List Nat → List Nat → List Access
  | b :: bs, v :: vs =>
    Access.write Reg.TXDATA b :: Access.read Reg.RXDATA v :: frameAccesses bs vs
  | _, _ => []

/-- A context for a transmit-only transfer of two bytes. -/
def ctxTx2Rx0 : spi_context :=
  { ctx0 with tx_buf := fun i => 0x40 + i, tx_len := 2, rx_buf := fun _ => 0xEE, rx_len := 0 }

/-! ## Peripherals given by a sequence of status values -/

/-- The number of reads of `STATUS` in a sequence of accesses. -/
def statusPolls : List Access → Nat
  | [] => 0
  | a :: l =>
    match a with
    | Access.read Reg.STATUS _ => statusPolls l + 1
    | _ => statusPolls l

/-- A peripheral whose status is a sequence of values observed by successive
polls: the read of `STATUS` after `j` earlier reads returns `s j`; every read
of `RXDATA` returns `rx`. -/
def hwSeq (s : Nat → Nat) (rx : Nat) : Hardware :=
  { STATUS := fun u => s (statusPolls u.log), RXDATA := fun _ => rx }

/-- A peripheral that reports transmit-complete on every third poll. -/
def hwThird : Hardware := hwSeq (fun j => if j % 3 = 2 then 0x20 else 0) 0x5A

/-- A peripheral that never reports transmit-complete. -/
def hwNever : Hardware := hwSeq (fun _ => 0) 0x5A

/-! ## The status seen by successive polls -/

/-- The block after `j` reads of `STATUS` made from the block `u`: every read
is recorded with the value the peripheral returned for it. -/
def pollState (hw : Hardware) : Nat → USART_TypeDef → USART_TypeDef
  | 0, u => u
  | j + 1, u => pollState hw j (u.note (Access.read Reg.STATUS (hw.STATUS u)))

/-- The sequence of status values observed by successive polls from the block
`u`: `statusAt hw u j` is the value that poll number `j` (from 0) reads. -/
def statusAt (hw : Hardware) (u : USART_TypeDef) (j : Nat) : Nat :=
  hw.STATUS (pollState hw j u)

/-- Polling from the block `u`, the transmit-complete bit of the status is
clear in the polls before number `j` and set in poll number `j`. -/
def FirstTxcAt (k : Header) (hw : Hardware) (u : USART_TypeDef) (j : Nat) : Prop :=
  (∀ i, i < j → statusAt hw u i &&& k.USART_STATUS_TXC = 0) ∧
  statusAt hw u j &&& k.USART_STATUS_TXC ≠ 0

instance (k : Header) (hw : Hardware) (u : USART_TypeDef) (j : Nat) :
    Decidable (FirstTxcAt k hw u j) := by
  unfold FirstTxcAt; infer_instance

/-- Polling from the block `u`, the transmit-complete bit of the status is
clear in every poll. -/
def NeverTxc (k : Header) (hw : Hardware) (u : USART_TypeDef) : Prop :=
  ∀ j, statusAt hw u j &&& k.USART_STATUS_TXC = 0

/-- The block after one frame: the byte `b` has been written to `TXDATA`,
`STATUS` has been read `j + 1` times and `RXDATA` has been read once. -/
def blockAfterFrame (hw : Hardware) (u : USART_TypeDef) (b j : Nat) : USART_TypeDef :=
  (pollState hw (j + 1) (USART_Tx u b)).note
    (Access.read Reg.RXDATA (hw.RXDATA (pollState hw (j + 1) (USART_Tx u b))))

/-- The peripheral reports transmit-complete for every frame of the bytes
`bs`, sent from the block `u`: after the write of each byte, the
transmit-complete bit of the status is observed set after finitely many
polls. -/
def FramesComplete (k : Header) (hw : Hardware) : List Nat → USART_TypeDef → Prop
  | [], _ => True
  | b :: bs, u =>
    ∃ j, FirstTxcAt k hw (USART_Tx u b) j ∧ FramesComplete k hw bs (blockAfterFrame hw u b j)

/-- For some frame of the bytes `bs`, sent from the block `u`, the
transmit-complete bit of the status is never observed set: the frames before
it complete, and after the write of its byte the bit is clear in every
poll. -/
def SomeFrameNeverTxc (k : Header) (hw : Hardware) : List Nat → USART_TypeDef → Prop
  | [], _ => False
  | b :: bs, u =>
    NeverTxc k hw (USART_Tx u b) ∨
    ∃ j, FirstTxcAt k hw (USART_Tx u b) j ∧
      SomeFrameNeverTxc k hw bs (blockAfterFrame hw u b j)

/-- The bytes of the frames of a transfer: for each index below
`max tx_len rx_len`, the byte of the transmit buffer inside the transmit
length and the dummy byte 0 outside. -/
def xferBytes (ctx : spi_context) : List Nat :=
  (List.range (max ctx.tx_len ctx.rx_len)).map
    (fun i => if i < ctx.tx_len then u8 (ctx.tx_buf i) else 0)

/-- A peripheral whose transmit-complete bit is clear until a byte has been
written to `TXDATA`: the status is 0x2040 (idle, buffer empty) before the
first write and 0x2060 after it; every read of `RXDATA` returns 0x5A. -/
def hwIdleUntilWrite : Hardware :=
  { STATUS := fun u => if (txWrites u.log).isEmpty then 0x2040 else 0x2060,
    RXDATA := fun _ => 0x5A }

/-- A peripheral in loopback whose transmit-complete bit is clear until a byte
has been written to `TXDATA`; a read of `RXDATA` returns the byte last written
to `TXDATA`. -/
def hwLoopIdle : Hardware :=
  { STATUS := fun u => if (txWrites u.log).isEmpty then 0x2040 else 0x2060,
    RXDATA := fun u => (txWrites u.log).getLastD 0 }

/-- The routing constants fit the registers: every location shift is at most
24 (an 8-bit location code then fits 32 bits), and the reset value and the
four enable bits are 32-bit values. -/
def Header.RouteBits (k : Header) : Prop :=
  k.USART_ROUTELOC0_TXLOC_SHIFT ≤ 24 ∧ k.USART_ROUTELOC0_RXLOC_SHIFT ≤ 24 ∧
  k.USART_ROUTELOC0_CLKLOC_SHIFT ≤ 24 ∧ k.USART_ROUTELOC0_CSLOC_SHIFT ≤ 24 ∧
  k.USART_ROUTELOC1_RESETVALUE < 2 ^ 32 ∧
  k.USART_ROUTEPEN_RXPEN < 2 ^ 32 ∧ k.USART_ROUTEPEN_TXPEN < 2 ^ 32 ∧
  k.USART_ROUTEPEN_CLKPEN < 2 ^ 32 ∧ k.USART_ROUTEPEN_CSPEN < 2 ^ 32

instance (k : Header) : Decidable k.RouteBits := by
  unfold Header.RouteBits; infer_instance

/-- The location codes of the device are values of type `u8_t`. -/
def device.LocCodes (dev : device) : Prop :=
  dev.loc_tx < 256 ∧ dev.loc_rx < 256 ∧ dev.loc_clk < 256 ∧ dev.loc_cs < 256

instance (dev : device) : Decidable dev.LocCodes := by
  unfold device.LocCodes; infer_instance

instance (a b : USART_TypeDef) : Decidable (a.sameRegs b) := by
  unfold USART_TypeDef.sameRegs; infer_instance

/-- Replay of a sequence of accesses from a value `pen` of the route-enable
register: every write to a route-location register happens while the
route-enable register holds 0. -/
def locWritesDisabled : Nat → List Access → Bool
  | _, [] => true
  | pen, a :: l =>
    match a with
    | Access.write Reg.ROUTEPEN v => locWritesDisabled v l
    | Access.write Reg.ROUTELOC0 _ => pen == 0 && locWritesDisabled pen l
    | Access.write Reg.ROUTELOC1 _ => pen == 0 && locWritesDisabled pen l
    | _ => locWritesDisabled pen l

/-- The value that `spi_gecko_init_pins` writes to `ROUTELOC0`. -/
def routeLoc0 (k : Header) (dev : device) : Nat :=
  (dev.loc_tx <<< k.USART_ROUTELOC0_TXLOC_SHIFT) |||
  (dev.loc_rx <<< k.USART_ROUTELOC0_RXLOC_SHIFT) |||
  (dev.loc_clk <<< k.USART_ROUTELOC0_CLKLOC_SHIFT) |||
  (dev.loc_cs <<< k.USART_ROUTELOC0_CSLOC_SHIFT)

/-- The value that `spi_gecko_init_pins` writes to `ROUTEPEN` at the end. -/
def routePen (k : Header) : Nat :=
  k.USART_ROUTEPEN_RXPEN ||| k.USART_ROUTEPEN_TXPEN |||
    k.USART_ROUTEPEN_CLKPEN ||| k.USART_ROUTEPEN_CSPEN

/-- A device with the pin locations TX 11, RX 10, CLK 12, CS 13 and routing
left enabled by an earlier configuration. -/
def devRouted : device :=
  { dev0 with
    base := { base0 with ROUTEPEN := 0xF, ROUTELOC0 := 0x01020304, ROUTELOC1 := 0x7 }
    loc_tx := 11, loc_rx := 10, loc_clk := 12, loc_cs := 13 }

/-- The operation word of a supported descriptor with the hold-on-chip-select
bit (bit 13), which `spi_config` does not test. -/
def opWord8Hold : Nat := (8 <<< 5) ||| 0x2000

/-! ## Bit arithmetic -/

theorem lor_eq_zero_iff (a b : Nat) : a ||| b = 0 ↔ a = 0 ∧ b = 0 := by
  constructor
  · intro h
    have hb : ∀ i, (a.testBit i || b.testBit i) = false := by
      intro i
      rw [← Nat.testBit_or, h, Nat.zero_testBit]
    constructor
    · apply Nat.eq_of_testBit_eq
      intro i
      have := hb i
      simp only [Bool.or_eq_false_iff] at this
      simp [this.1]
    · apply Nat.eq_of_testBit_eq
      intro i
      have := hb i
      simp only [Bool.or_eq_false_iff] at this
      simp [this.2]
  · rintro ⟨rfl, rfl⟩
    rfl

theorem and_lor_eq_zero_iff (x a b : Nat) :
    x &&& (a ||| b) = 0 ↔ x &&& a = 0 ∧ x &&& b = 0 := by
  rw [Nat.and_or_distrib_left, lor_eq_zero_iff]

theorem u32_of_lt {x : Nat} (h : x < 2 ^ 32) : u32 x = x :=
  Nat.mod_eq_of_lt h

theorem testBit_u32 (x i : Nat) : (u32 x).testBit i = (decide (i < 32) && x.testBit i) := by
  unfold u32
  rw [Nat.testBit_mod_two_pow]

theorem testBit_not32 (x i : Nat) :
    (not32 x).testBit i = (decide (i < 32) && !x.testBit i) := by
  unfold not32
  have h : (0xFFFFFFFF : Nat) = 2 ^ 32 - 1 := by norm_num
  rw [Nat.testBit_xor, h, Nat.testBit_two_pow_sub_one, testBit_u32]
  by_cases hi : i < 32 <;> simp [hi]

theorem testBit_of_lt_u32 {x : Nat} (h : x < 2 ^ 32) {i : Nat} (hi : ¬ i < 32) :
    x.testBit i = false := by
  apply Nat.testBit_lt_two_pow
  calc x < 2 ^ 32 := h
    _ ≤ 2 ^ i := Nat.pow_le_pow_right (by norm_num) (by omega)

/-- Setting a mask and then a second one leaves the first mask set. -/
theorem ctrl_set_loop (c l a : Nat) (hl : l < 2 ^ 32) :
    u32 (u32 (c ||| l) ||| a) &&& l = l := by
  apply Nat.eq_of_testBit_eq
  intro i
  simp only [Nat.testBit_and, Nat.testBit_or, testBit_u32]
  by_cases hi : i < 32
  · simp only [hi, decide_True, Bool.true_and]
    cases c.testBit i <;> cases l.testBit i <;> cases a.testBit i <;> rfl
  · simp [hi, testBit_of_lt_u32 hl hi]

/-- Clearing a mask and then setting a disjoint one leaves the first mask
clear. -/
theorem ctrl_clear_loop (c l a : Nat) (hla : l &&& a = 0) :
    u32 (u32 (c &&& not32 l) ||| a) &&& l = 0 := by
  apply Nat.eq_of_testBit_eq
  intro i
  have hd : (l.testBit i && a.testBit i) = false := by
    rw [← Nat.testBit_and, hla, Nat.zero_testBit]
  simp only [Nat.testBit_and, Nat.testBit_or, testBit_u32, testBit_not32, Nat.zero_testBit]
  by_cases hi : i < 32
  · simp only [hi, decide_True, Bool.true_and]
    revert hd
    cases c.testBit i <;> cases l.testBit i <;> cases a.testBit i <;> simp
  · simp [hi]

/-- Setting a mask that fits the register leaves it set. -/
theorem ctrl_set_autocs (c a : Nat) (ha : a < 2 ^ 32) : u32 (c ||| a) &&& a = a := by
  apply Nat.eq_of_testBit_eq
  intro i
  simp only [Nat.testBit_and, Nat.testBit_or, testBit_u32]
  by_cases hi : i < 32
  · simp only [hi, decide_True, Bool.true_and]
    cases c.testBit i <;> cases a.testBit i <;> rfl
  · simp [hi, testBit_of_lt_u32 ha hi]

/-! ## The validator `spi_config` -/

theorem spi_config_rejected (k : Header) (dev : device) (c : struct_spi_config)
    (h : ¬ Supported k c) :
    ∃ msg, spi_config k dev c = (-(k.ENOTSUP : Int), LOG_ERR dev msg) := by
  unfold spi_config
  by_cases h1 : c.slave ≠ 0 ∧ c.slave ≥ SPI_MAX_CS_SIZE
  · rw [if_pos h1]; exact ⟨_, rfl⟩
  rw [if_neg h1]
  by_cases h2 : k.SPI_WORD_SIZE_GET c.operation ≠ 8
  · rw [if_pos h2]; exact ⟨_, rfl⟩
  rw [if_neg h2]
  by_cases h3 : c.operation &&& k.SPI_CS_ACTIVE_HIGH ≠ 0
  · rw [if_pos h3]; exact ⟨_, rfl⟩
  rw [if_neg h3]
  by_cases h4 : c.operation &&& k.SPI_LOCK_ON ≠ 0
  · rw [if_pos h4]; exact ⟨_, rfl⟩
  rw [if_neg h4]
  by_cases h5 : c.operation &&& k.SPI_LINES_MASK ≠ k.SPI_LINES_SINGLE
  · rw [if_pos h5]; exact ⟨_, rfl⟩
  rw [if_neg h5]
  by_cases h6 : c.operation &&& k.SPI_TRANSFER_LSB ≠ 0
  · rw [if_pos h6]; exact ⟨_, rfl⟩
  rw [if_neg h6]
  by_cases h7 : c.operation &&& (k.SPI_MODE_CPOL ||| k.SPI_MODE_CPHA) ≠ 0
  · rw [if_pos h7]; exact ⟨_, rfl⟩
  rw [if_neg h7]
  by_cases h8 : c.operation &&& k.SPI_OP_MODE_SLAVE ≠ 0
  · rw [if_pos h8]; exact ⟨_, rfl⟩
  exfalso
  apply h
  simp only [SPI_MAX_CS_SIZE] at h1
  exact ⟨by omega, not_not.1 h2, not_not.1 h3, not_not.1 h4, not_not.1 h5, not_not.1 h6,
    (and_lor_eq_zero_iff _ _ _).1 (not_not.1 h7), not_not.1 h8⟩

theorem spi_config_accepted (k : Header) (dev : device) (c : struct_spi_config)
    (h : Supported k c) :
    (spi_config k dev c).1 = 0 ∧
    (spi_config k dev c).2.base.CTRL = ctrlAfter k dev.base.CTRL c ∧
    (spi_config k dev c).2.base.FRAME =
      u32 (u32 (k.SPI_WORD_SIZE_GET c.operation) ||| k.USART_FRAME_STOPBITS_DEFAULT
        ||| k.USART_FRAME_PARITY_DEFAULT) ∧
    (spi_config k dev c).2.ctx = dev.ctx ∧
    (spi_config k dev c).2.errlog = dev.errlog := by
  obtain ⟨h1, h2, h3, h4, h5, h6, ⟨h7a, h7b⟩, h8⟩ := h
  have h7 : c.operation &&& (k.SPI_MODE_CPOL ||| k.SPI_MODE_CPHA) = 0 :=
    (and_lor_eq_zero_iff _ _ _).2 ⟨h7a, h7b⟩
  have h1n : ¬ (c.slave ≠ 0 ∧ c.slave ≥ SPI_MAX_CS_SIZE) := by
    simp only [SPI_MAX_CS_SIZE]; omega
  unfold spi_config ctrlAfter
  simp only [h1n, h2, h3, h4, h5, h6, h7, h8, if_false, ne_eq, not_true_eq_false,
    USART_TypeDef.getCTRL, USART_TypeDef.setCTRL, USART_TypeDef.setFRAME,
    USART_TypeDef.note]
  by_cases hl : c.operation &&& k.SPI_MODE_LOOP = 0 <;> simp [hl]

theorem causeMessage_injective : ∀ a b : Cause, causeMessage a = causeMessage b → a = b := by
  intro a b
  cases a <;> cases b <;> simp [causeMessage]

theorem spi_config_rejected_cause (k : Header) (dev : device) (c : struct_spi_config)
    (h : ¬ Supported k c) :
    ∃ cause, firstFailing k c = some cause ∧
      spi_config k dev c = (-(k.ENOTSUP : Int), LOG_ERR dev (causeMessage cause)) := by
  unfold spi_config firstFailing
  by_cases h1 : c.slave ≠ 0 ∧ c.slave ≥ SPI_MAX_CS_SIZE
  · have h1b : ¬ c.slave < 3 := by simp only [SPI_MAX_CS_SIZE] at h1; omega
    rw [if_pos h1, if_pos h1b]; exact ⟨_, rfl, rfl⟩
  have h1b : ¬ ¬ c.slave < 3 := by simp only [SPI_MAX_CS_SIZE] at h1; omega
  rw [if_neg h1, if_neg h1b]
  by_cases h2 : k.SPI_WORD_SIZE_GET c.operation ≠ 8
  · rw [if_pos h2, if_pos h2]; exact ⟨_, rfl, rfl⟩
  rw [if_neg h2, if_neg h2]
  by_cases h3 : c.operation &&& k.SPI_CS_ACTIVE_HIGH ≠ 0
  · rw [if_pos h3, if_pos h3]; exact ⟨_, rfl, rfl⟩
  rw [if_neg h3, if_neg h3]
  by_cases h4 : c.operation &&& k.SPI_LOCK_ON ≠ 0
  · rw [if_pos h4, if_pos h4]; exact ⟨_, rfl, rfl⟩
  rw [if_neg h4, if_neg h4]
  by_cases h5 : c.operation &&& k.SPI_LINES_MASK ≠ k.SPI_LINES_SINGLE
  · rw [if_pos h5, if_pos h5]; exact ⟨_, rfl, rfl⟩
  rw [if_neg h5, if_neg h5]
  by_cases h6 : c.operation &&& k.SPI_TRANSFER_LSB ≠ 0
  · rw [if_pos h6, if_pos h6]; exact ⟨_, rfl, rfl⟩
  rw [if_neg h6, if_neg h6]
  by_cases h7 : c.operation &&& (k.SPI_MODE_CPOL ||| k.SPI_MODE_CPHA) ≠ 0
  · have h7b : ¬ (c.operation &&& k.SPI_MODE_CPOL = 0 ∧ c.operation &&& k.SPI_MODE_CPHA = 0) :=
      fun hc => h7 ((and_lor_eq_zero_iff _ _ _).2 hc)
    rw [if_pos h7, if_pos h7b]; exact ⟨_, rfl, rfl⟩
  have h7b : ¬ ¬ (c.operation &&& k.SPI_MODE_CPOL = 0 ∧ c.operation &&& k.SPI_MODE_CPHA = 0) :=
    not_not.2 ((and_lor_eq_zero_iff _ _ _).1 (not_not.1 h7))
  rw [if_neg h7, if_neg h7b]
  by_cases h8 : c.operation &&& k.SPI_OP_MODE_SLAVE ≠ 0
  · rw [if_pos h8, if_pos h8]; exact ⟨_, rfl, rfl⟩
  exfalso
  apply h
  exact ⟨not_not.1 h1b, not_not.1 h2, not_not.1 h3, not_not.1 h4, not_not.1 h5, not_not.1 h6,
    not_not.1 h7b, not_not.1 h8⟩

/-! ## Theorems about the validator -/

/-- C2: for every descriptor that violates at least one of the eight
constraints (it is not `Supported`) and every prior state of the device,
`spi_config` returns the unsupported-configuration error `-ENOTSUP` and leaves
the register block (every register, `CTRL` and `FRAME` among them, and the
access history) and the transfer context exactly as they were. -/
theorem spi_config_reject_keeps_registers (k : Header) (dev : device)
    (c : struct_spi_config) (h : ¬ Supported k c) :
    (spi_config k dev c).1 = -(k.ENOTSUP : Int) ∧
    (spi_config k dev c).2.base = dev.base ∧
    (spi_config k dev c).2.ctx = dev.ctx := by
  obtain ⟨msg, hm⟩ := spi_config_rejected k dev c h
  rw [hm]
  exact ⟨rfl, rfl, rfl⟩

theorem spi_config_reject_keeps_registers_witness :
    ¬ Supported gecko ⟨1000000, opWord16, 0⟩ ∧
    ((spi_config gecko dev0 ⟨1000000, opWord16, 0⟩).1 = -(gecko.ENOTSUP : Int) ∧
     (spi_config gecko dev0 ⟨1000000, opWord16, 0⟩).2.base = dev0.base ∧
     (spi_config gecko dev0 ⟨1000000, opWord16, 0⟩).2.ctx = dev0.ctx) :=
  ⟨by decide, spi_config_reject_keeps_registers gecko dev0 ⟨1000000, opWord16, 0⟩ (by decide)⟩

/-- C3: for every supported descriptor, either value of the loopback flag and
every prior value of the control register, `spi_config` returns 0 and the
loopback bit of the control register afterwards is set if and only if the
loopback flag was requested: it is set when requested and clear when not
requested, whatever its value was before. -/
theorem spi_config_loopback_bit (k : Header) (dev : device) (c : struct_spi_config)
    (hk : k.RegBits) (hs : Supported k c) :
    (spi_config k dev c).1 = 0 ∧
    ((spi_config k dev c).2.base.CTRL &&& k.USART_CTRL_LOOPBK ≠ 0 ↔ LoopRequested k c) ∧
    (LoopRequested k c →
      (spi_config k dev c).2.base.CTRL &&& k.USART_CTRL_LOOPBK = k.USART_CTRL_LOOPBK) ∧
    (¬ LoopRequested k c →
      (spi_config k dev c).2.base.CTRL &&& k.USART_CTRL_LOOPBK = 0) := by
  obtain ⟨hl, -, hne, hla, -, -⟩ := hk
  obtain ⟨h0, hc, -, -, -⟩ := spi_config_accepted k dev c hs
  have hset : LoopRequested k c →
      (spi_config k dev c).2.base.CTRL &&& k.USART_CTRL_LOOPBK = k.USART_CTRL_LOOPBK := by
    intro hr
    have hr2 : c.operation &&& k.SPI_MODE_LOOP ≠ 0 := hr
    rw [hc, ctrlAfter, if_pos hr2]
    exact ctrl_set_loop _ _ _ hl
  have hclr : ¬ LoopRequested k c →
      (spi_config k dev c).2.base.CTRL &&& k.USART_CTRL_LOOPBK = 0 := by
    intro hr
    have hr2 : ¬ c.operation &&& k.SPI_MODE_LOOP ≠ 0 := hr
    rw [hc, ctrlAfter, if_neg hr2]
    exact ctrl_clear_loop _ _ _ hla
  refine ⟨h0, ⟨?_, ?_⟩, hset, hclr⟩
  · intro hb
    by_contra hr
    exact hb (hclr hr)
  · intro hr
    rw [hset hr]
    exact hne

theorem spi_config_loopback_bit_witness :
    (gecko.RegBits ∧ Supported gecko ⟨1000000, opWord8, 0⟩) ∧
    ((spi_config gecko { dev0 with base := { base0 with CTRL := 0x2 } }
        ⟨1000000, opWord8, 0⟩).1 = 0 ∧
     ((spi_config gecko { dev0 with base := { base0 with CTRL := 0x2 } }
        ⟨1000000, opWord8, 0⟩).2.base.CTRL &&& gecko.USART_CTRL_LOOPBK ≠ 0 ↔
       LoopRequested gecko ⟨1000000, opWord8, 0⟩) ∧
     (LoopRequested gecko ⟨1000000, opWord8, 0⟩ →
      (spi_config gecko { dev0 with base := { base0 with CTRL := 0x2 } }
        ⟨1000000, opWord8, 0⟩).2.base.CTRL &&& gecko.USART_CTRL_LOOPBK =
        gecko.USART_CTRL_LOOPBK) ∧
     (¬ LoopRequested gecko ⟨1000000, opWord8, 0⟩ →
      (spi_config gecko { dev0 with base := { base0 with CTRL := 0x2 } }
        ⟨1000000, opWord8, 0⟩).2.base.CTRL &&& gecko.USART_CTRL_LOOPBK = 0)) :=
  ⟨⟨by decide, by decide⟩,
   spi_config_loopback_bit gecko { dev0 with base := { base0 with CTRL := 0x2 } }
     ⟨1000000, opWord8, 0⟩ (by decide) (by decide)⟩

/-- C10: for every accepted descriptor, the frame register written by
`spi_config` equals the word size 8 combined by bitwise OR with the stop-bit
default and the parity default, and the auto-chip-select bit of the control
register is set. -/
theorem spi_config_frame_and_autocs (k : Header) (dev : device) (c : struct_spi_config)
    (hk : k.RegBits) (hs : Supported k c) :
    (spi_config k dev c).2.base.FRAME =
      8 ||| k.USART_FRAME_STOPBITS_DEFAULT ||| k.USART_FRAME_PARITY_DEFAULT ∧
    (spi_config k dev c).2.base.CTRL &&& k.USART_CTRL_AUTOCS = k.USART_CTRL_AUTOCS := by
  obtain ⟨-, ha, -, -, hst, hpa⟩ := hk
  obtain ⟨-, hc, hf, -, -⟩ := spi_config_accepted k dev c hs
  have h8 : k.SPI_WORD_SIZE_GET c.operation = 8 := hs.2.1
  constructor
  · rw [hf, h8]
    have h8lt : (8 : Nat) < 2 ^ 32 := by norm_num
    rw [u32_of_lt h8lt]
    exact u32_of_lt (Nat.or_lt_two_pow (Nat.or_lt_two_pow h8lt hst) hpa)
  · rw [hc, ctrlAfter]
    split_ifs
    · exact ctrl_set_autocs _ _ ha
    · exact ctrl_set_autocs _ _ ha

theorem spi_config_frame_and_autocs_witness :
    (gecko.RegBits ∧ Supported gecko ⟨1000000, opWord8, 2⟩) ∧
    ((spi_config gecko dev0 ⟨1000000, opWord8, 2⟩).2.base.FRAME =
      8 ||| gecko.USART_FRAME_STOPBITS_DEFAULT ||| gecko.USART_FRAME_PARITY_DEFAULT ∧
     (spi_config gecko dev0 ⟨1000000, opWord8, 2⟩).2.base.CTRL &&& gecko.USART_CTRL_AUTOCS =
      gecko.USART_CTRL_AUTOCS) :=
  ⟨⟨by decide, by decide⟩,
   spi_config_frame_and_autocs gecko dev0 ⟨1000000, opWord8, 2⟩ (by decide) (by decide)⟩

/-- C7, as the claim states it, fails: a descriptor with word size 16 and an
LSB-first descriptor with word size 8 fail different constraints, and
`spi_config` returns the same error value for both. -/
theorem spi_config_same_error_for_different_causes :
    firstFailing gecko ⟨1000000, opWord16, 0⟩ = some Cause.word_size ∧
    firstFailing gecko ⟨1000000, opWord8Lsb, 0⟩ = some Cause.bit_order ∧
    (spi_config gecko dev0 ⟨1000000, opWord16, 0⟩).1 =
      (spi_config gecko dev0 ⟨1000000, opWord8Lsb, 0⟩).1 := by
  decide

/-- C7, amended: every rejection of `spi_config` returns the same value
`-ENOTSUP`, whatever constraint failed; the cause is identified by the message
that is logged: two rejected descriptors produce the same log if and only if
their first failing constraint is the same. -/
theorem spi_config_cause_in_log_only (k : Header) (dev : device)
    (c1 c2 : struct_spi_config) (h1 : ¬ Supported k c1) (h2 : ¬ Supported k c2) :
    (spi_config k dev c1).1 = -(k.ENOTSUP : Int) ∧
    (spi_config k dev c2).1 = -(k.ENOTSUP : Int) ∧
    ((spi_config k dev c1).2.errlog = (spi_config k dev c2).2.errlog ↔
      firstFailing k c1 = firstFailing k c2) := by
  obtain ⟨a, ha, hca⟩ := spi_config_rejected_cause k dev c1 h1
  obtain ⟨b, hb, hcb⟩ := spi_config_rejected_cause k dev c2 h2
  rw [hca, hcb, ha, hb]
  refine ⟨rfl, rfl, ?_⟩
  simp only [LOG_ERR, List.append_cancel_left_eq, List.cons.injEq, and_true, Option.some.injEq]
  exact ⟨causeMessage_injective a b, fun h => by rw [h]⟩

theorem spi_config_cause_in_log_only_witness :
    (¬ Supported gecko ⟨1000000, opWord16, 0⟩ ∧ ¬ Supported gecko ⟨1000000, opWord8Lsb, 0⟩) ∧
    ((spi_config gecko dev0 ⟨1000000, opWord16, 0⟩).1 = -(gecko.ENOTSUP : Int) ∧
     (spi_config gecko dev0 ⟨1000000, opWord8Lsb, 0⟩).1 = -(gecko.ENOTSUP : Int) ∧
     ((spi_config gecko dev0 ⟨1000000, opWord16, 0⟩).2.errlog =
        (spi_config gecko dev0 ⟨1000000, opWord8Lsb, 0⟩).2.errlog ↔
      firstFailing gecko ⟨1000000, opWord16, 0⟩ =
        firstFailing gecko ⟨1000000, opWord8Lsb, 0⟩)) :=
  ⟨⟨by decide, by decide⟩,
   spi_config_cause_in_log_only gecko dev0 ⟨1000000, opWord16, 0⟩ ⟨1000000, opWord8Lsb, 0⟩
     (by decide) (by decide)⟩

/-! ## The release query -/

/-- C9: for every value of the status register, `spi_gecko_release` returns
`-EBUSY` if and only if the transmit-idle bit of the status is clear, returns
0 otherwise, and changes no register and no field of the transfer context. -/
theorem spi_gecko_release_busy_iff (k : Header) (hw : Hardware) (dev : device)
    (config : struct_spi_config) (hE : k.EBUSY ≠ 0) :
    ((spi_gecko_release k hw dev config).1 = -(k.EBUSY : Int) ↔
      hw.STATUS dev.base &&& k.USART_STATUS_TXIDLE = 0) ∧
    ((spi_gecko_release k hw dev config).1 = 0 ↔
      hw.STATUS dev.base &&& k.USART_STATUS_TXIDLE ≠ 0) ∧
    (spi_gecko_release k hw dev config).2.base.sameRegs dev.base ∧
    (spi_gecko_release k hw dev config).2.ctx = dev.ctx := by
  have hE2 : (k.EBUSY : Int) ≠ 0 := by exact_mod_cast hE
  unfold spi_gecko_release
  by_cases hb : hw.STATUS dev.base &&& k.USART_STATUS_TXIDLE = 0
  · simp only [hb, if_true, true_iff, ne_eq, not_true_eq_false, iff_false]
    refine ⟨trivial, ?_, ?_, trivial⟩
    · simpa using hE2
    · simp [USART_TypeDef.sameRegs, USART_TypeDef.note]
  · simp only [hb, if_false, iff_false, ne_eq, not_false_eq_true, iff_true]
    refine ⟨?_, trivial, ?_, trivial⟩
    · intro h0
      exact hE2 (by omega)
    · simp [USART_TypeDef.sameRegs, USART_TypeDef.note]

theorem spi_gecko_release_busy_iff_witness :
    gecko.EBUSY ≠ 0 ∧
    (((spi_gecko_release gecko hwReady dev0 ⟨1000000, opWord8, 0⟩).1 = -(gecko.EBUSY : Int) ↔
      hwReady.STATUS dev0.base &&& gecko.USART_STATUS_TXIDLE = 0) ∧
     ((spi_gecko_release gecko hwReady dev0 ⟨1000000, opWord8, 0⟩).1 = 0 ↔
      hwReady.STATUS dev0.base &&& gecko.USART_STATUS_TXIDLE ≠ 0) ∧
     (spi_gecko_release gecko hwReady dev0 ⟨1000000, opWord8, 0⟩).2.base.sameRegs dev0.base ∧
     (spi_gecko_release gecko hwReady dev0 ⟨1000000, opWord8, 0⟩).2.ctx = dev0.ctx) :=
  ⟨by decide, spi_gecko_release_busy_iff gecko hwReady dev0 ⟨1000000, opWord8, 0⟩ (by decide)⟩

/-! ## The access history -/

theorem txWrites_append (a b : List Access) : txWrites (a ++ b) = txWrites a ++ txWrites b := by
  simp [txWrites, List.filterMap_append]

theorem rxReads_append (a b : List Access) : rxReads (a ++ b) = rxReads a ++ rxReads b := by
  simp [rxReads, List.filterMap_append]

theorem txWrites_status (vs : List Nat) : txWrites (vs.map (Access.read Reg.STATUS)) = [] := by
  induction vs with
  | nil => rfl
  | cons v vs ih => simp [txWrites, Access.txByte]

theorem rxReads_status (vs : List Nat) : rxReads (vs.map (Access.read Reg.STATUS)) = [] := by
  induction vs with
  | nil => rfl
  | cons v vs ih => simp [rxReads, Access.rxValue]

/-! ## The busy wait -/

theorem wait_txc_result (k : Header) (hw : Hardware) :
    ∀ (polls : Nat) (u r : USART_TypeDef), wait_txc k hw polls u = some r →
      ∃ vs : List Nat, r = { u with log := u.log ++ vs.map (Access.read Reg.STATUS) } := by
  intro polls
  induction polls with
  | zero => intro u r h; simp [wait_txc] at h
  | succ n ih =>
    intro u r h
    simp only [wait_txc] at h
    split_ifs at h with hb
    · refine ⟨[hw.STATUS u], ?_⟩
      simp only [Option.some.injEq] at h
      rw [← h]
      rfl
    · obtain ⟨vs, hvs⟩ := ih _ _ h
      refine ⟨hw.STATUS u :: vs, ?_⟩
      rw [hvs]
      simp [USART_TypeDef.note]

theorem wait_txc_mono (k : Header) (hw : Hardware) :
    ∀ (polls : Nat) (u r : USART_TypeDef), wait_txc k hw polls u = some r →
      ∀ more, polls ≤ more → wait_txc k hw more u = some r := by
  intro polls
  induction polls with
  | zero => intro u r h; simp [wait_txc] at h
  | succ n ih =>
    intro u r h more hle
    obtain ⟨m, rfl⟩ : ∃ m, more = m + 1 := ⟨more - 1, by omega⟩
    simp only [wait_txc] at h ⊢
    split_ifs at h ⊢ with hb
    · exact h
    · exact ih _ _ h m (by omega)

/-! ## One frame -/

theorem u8_u8 (x : Nat) : u8 (u8 x) = u8 x := by
  unfold u8; exact Nat.mod_mod _ _

theorem xfer_frame_eq (k : Header) (hw : Hardware) (polls control i : Nat) (dev : device) :
    xfer_frame k hw polls control i dev =
      (wait_txc k hw polls (USART_Tx dev.base (frameByte dev.ctx i))).map
        (fun b =>
          let r := spi_gecko_recv hw b
          if i < dev.ctx.rx_len then
            { dev with base := r.2,
                       ctx := { dev.ctx with
                                rx_buf := fun j => if j = i then r.1 else dev.ctx.rx_buf j } }
          else
            { dev with base := r.2 }) := by
  unfold xfer_frame spi_gecko_send frameByte
  by_cases h1 : i < dev.ctx.tx_len <;> simp [h1, Option.map_map, Function.comp_def]

theorem xfer_frame_result (k : Header) (hw : Hardware) (polls control i : Nat)
    (dev d : device) (h : xfer_frame k hw polls control i dev = some d) :
    ∃ vs : List Nat, d = frameDone hw dev i vs := by
  rw [xfer_frame_eq] at h
  simp only [Option.map_eq_some'] at h
  obtain ⟨b, hb, hd⟩ := h
  obtain ⟨vs, hvs⟩ := wait_txc_result k hw polls _ _ hb
  refine ⟨vs, ?_⟩
  have hmid : b = frameMid dev i vs := by
    rw [hvs]
    simp [frameMid, USART_Tx, USART_TypeDef.note, frameByte, u8_u8]
    split_ifs <;> simp [u8_u8, u8]
  subst hd
  rw [hmid]
  unfold frameDone spi_gecko_recv
  split_ifs <;> rfl

theorem xfer_frame_mono (k : Header) (hw : Hardware) (polls control i : Nat)
    (dev d : device) (h : xfer_frame k hw polls control i dev = some d)
    (more : Nat) (hle : polls ≤ more) :
    xfer_frame k hw more control i dev = some d := by
  rw [xfer_frame_eq] at h ⊢
  simp only [Option.map_eq_some'] at h ⊢
  obtain ⟨b, hb, hd⟩ := h
  exact ⟨b, wait_txc_mono k hw polls _ _ hb more hle, hd⟩

theorem Kept.refl (d : device) : Kept d d := by
  simp [Kept, USART_TypeDef.sameRegs]

theorem Kept.trans {a b c : device} (hab : Kept a b) (hbc : Kept b c) : Kept a c := by
  obtain ⟨⟨a1, a2, a3, a4, a5, a6⟩, a7, a8, a9, a10, a11, a12, a13, a14, a15, a16, a17⟩ := hab
  obtain ⟨⟨b1, b2, b3, b4, b5, b6⟩, b7, b8, b9, b10, b11, b12, b13, b14, b15, b16, b17⟩ := hbc
  exact ⟨⟨b1.trans a1, b2.trans a2, b3.trans a3, b4.trans a4, b5.trans a5, b6.trans a6⟩,
    b7.trans a7, b8.trans a8, b9.trans a9, b10.trans a10, b11.trans a11, b12.trans a12,
    b13.trans a13, b14.trans a14, b15.trans a15, b16.trans a16, b17.trans a17⟩

theorem frameByte_congr {c1 c2 : spi_context} (hb : c2.tx_buf = c1.tx_buf)
    (hl : c2.tx_len = c1.tx_len) : frameByte c2 = frameByte c1 := by
  funext i
  simp [frameByte, hb, hl]

theorem frameDone_kept (hw : Hardware) (dev : device) (i : Nat) (vs : List Nat) :
    Kept dev (frameDone hw dev i vs) := by
  unfold frameDone Kept
  by_cases h : i < dev.ctx.rx_len <;>
    simp [h, USART_TypeDef.sameRegs, USART_TypeDef.note, frameMid]

theorem frameDone_txWrites (hw : Hardware) (dev : device) (i : Nat) (vs : List Nat) :
    txWrites (frameDone hw dev i vs).base.log =
      txWrites dev.base.log ++ [frameByte dev.ctx i] := by
  simp only [frameDone, USART_TypeDef.note, frameMid, txWrites_append]
  have h1 : txWrites (Access.write Reg.TXDATA (frameByte dev.ctx i) ::
      vs.map (Access.read Reg.STATUS)) = [frameByte dev.ctx i] := by
    have := txWrites_status vs
    simp only [txWrites] at this ⊢
    simp [List.filterMap_cons, Access.txByte, this]
  have h2 : txWrites [Access.read Reg.RXDATA (hw.RXDATA (frameMid dev i vs))] = [] := by
    simp [txWrites, Access.txByte]
  simp only [frameMid] at h2
  rw [h1, h2, List.append_nil]

theorem frameMid_txWrites (dev : device) (i : Nat) (vs : List Nat) :
    txWrites (frameMid dev i vs).log = txWrites dev.base.log ++ [frameByte dev.ctx i] := by
  simp only [frameMid, txWrites_append]
  have := txWrites_status vs
  simp only [txWrites] at this ⊢
  simp [List.filterMap_cons, Access.txByte, this]

theorem frameDone_rxReads (hw : Hardware) (dev : device) (i : Nat) (vs : List Nat) :
    rxReads (frameDone hw dev i vs).base.log =
      rxReads dev.base.log ++ [hw.RXDATA (frameMid dev i vs)] := by
  have h0 : (frameDone hw dev i vs).base.log =
      (frameMid dev i vs).log ++ [Access.read Reg.RXDATA (hw.RXDATA (frameMid dev i vs))] := rfl
  have h1 : rxReads (frameMid dev i vs).log = rxReads dev.base.log := by
    simp only [frameMid, rxReads_append]
    have := rxReads_status vs
    simp only [rxReads] at this ⊢
    simp [List.filterMap_cons, Access.rxValue, this]
  rw [h0, rxReads_append, h1]
  simp [rxReads, Access.rxValue]

theorem frameDone_rx_buf (hw : Hardware) (dev : device) (i : Nat) (vs : List Nat) (j : Nat) :
    (frameDone hw dev i vs).ctx.rx_buf j =
      if j = i ∧ i < dev.ctx.rx_len then u8 (hw.RXDATA (frameMid dev i vs))
      else dev.ctx.rx_buf j := by
  unfold frameDone
  by_cases h : i < dev.ctx.rx_len
  · by_cases hj : j = i <;> simp [h, hj]
  · simp [h]

/-! ## The frame loop -/

theorem xfer_loop_succ (k : Header) (hw : Hardware) (polls control n i : Nat) (dev d : device)
    (h : xfer_loop k hw polls control (n + 1) i dev = some d) :
    ∃ vs, xfer_frame k hw polls control i dev = some (frameDone hw dev i vs) ∧
      xfer_loop k hw polls control n (i + 1) (frameDone hw dev i vs) = some d := by
  simp only [xfer_loop, Option.bind_eq_some] at h
  obtain ⟨d1, h1, h2⟩ := h
  obtain ⟨vs, hvs⟩ := xfer_frame_result k hw polls control i dev d1 h1
  subst hvs
  exact ⟨vs, h1, h2⟩

/-- The effect of the frame loop, whenever it ends. -/
theorem xfer_loop_result (k : Header) (hw : Hardware) (polls control : Nat) :
    ∀ (n i : Nat) (dev d : device), xfer_loop k hw polls control n i dev = some d →
      Kept dev d ∧
      txWrites d.base.log =
        txWrites dev.base.log ++ (List.range' i n).map (frameByte dev.ctx) ∧
      ∃ R : List Nat, R.length = n ∧
        rxReads d.base.log = rxReads dev.base.log ++ R ∧
        ∀ j, d.ctx.rx_buf j =
          if i ≤ j ∧ j < i + n ∧ j < dev.ctx.rx_len then u8 (R.getD (j - i) 0)
          else dev.ctx.rx_buf j := by
  intro n
  induction n with
  | zero =>
    intro i dev d h
    simp only [xfer_loop, Option.some.injEq] at h
    subst h
    refine ⟨Kept.refl _, by simp, [], rfl, by simp, ?_⟩
    intro j
    have : ¬ (i ≤ j ∧ j < i + 0 ∧ j < dev.ctx.rx_len) := by omega
    rw [if_neg this]
  | succ n ih =>
    intro i dev d h
    obtain ⟨vs, -, h2⟩ := xfer_loop_succ k hw polls control n i dev d h
    obtain ⟨hk, htx, R, hlen, hrx, hbuf⟩ := ih (i + 1) _ d h2
    have hk1 := frameDone_kept hw dev i vs
    have hfb : frameByte (frameDone hw dev i vs).ctx = frameByte dev.ctx :=
      frameByte_congr hk1.2.1 hk1.2.2.1
    have hrl : (frameDone hw dev i vs).ctx.rx_len = dev.ctx.rx_len := hk1.2.2.2.1
    refine ⟨hk1.trans hk, ?_, hw.RXDATA (frameMid dev i vs) :: R, by simp [hlen], ?_, ?_⟩
    · rw [htx, hfb, frameDone_txWrites, List.range'_succ]
      simp
    · rw [hrx, frameDone_rxReads]
      simp
    · intro j
      rw [hbuf j, hrl, frameDone_rx_buf]
      by_cases hji : j = i
      · subst hji
        have c1 : ¬ (j + 1 ≤ j ∧ j < j + 1 + n ∧ j < dev.ctx.rx_len) := by omega
        rw [if_neg c1]
        by_cases hr : j < dev.ctx.rx_len
        · have c2 : j ≤ j ∧ j < j + (n + 1) ∧ j < dev.ctx.rx_len := ⟨le_refl _, by omega, hr⟩
          rw [if_pos ⟨rfl, hr⟩, if_pos c2]
          simp
        · have c2 : ¬ (j ≤ j ∧ j < j + (n + 1) ∧ j < dev.ctx.rx_len) := fun c => hr c.2.2
          have c3 : ¬ (j = j ∧ j < dev.ctx.rx_len) := fun c => hr c.2
          rw [if_neg c3, if_neg c2]
      · have c3 : ¬ (j = i ∧ i < dev.ctx.rx_len) := fun c => hji c.1
        rw [if_neg c3]
        by_cases hc : i + 1 ≤ j ∧ j < i + 1 + n ∧ j < dev.ctx.rx_len
        · have c2 : i ≤ j ∧ j < i + (n + 1) ∧ j < dev.ctx.rx_len := by omega
          rw [if_pos hc, if_pos c2]
          have hsub : j - i = (j - (i + 1)) + 1 := by omega
          rw [hsub, List.getD_cons_succ]
        · have c2 : ¬ (i ≤ j ∧ j < i + (n + 1) ∧ j < dev.ctx.rx_len) := by omega
          rw [if_neg hc, if_neg c2]

/-- In loopback every frame reads back the byte it has sent. -/
theorem xfer_loop_loopback (k : Header) (hw : Hardware) (hl : LoopsBack k hw)
    (polls control : Nat) :
    ∀ (n i : Nat) (dev d : device), xfer_loop k hw polls control n i dev = some d →
      dev.base.CTRL &&& k.USART_CTRL_LOOPBK = k.USART_CTRL_LOOPBK →
      rxReads d.base.log =
        rxReads dev.base.log ++ (List.range' i n).map (frameByte dev.ctx) := by
  intro n
  induction n with
  | zero =>
    intro i dev d h _
    simp only [xfer_loop, Option.some.injEq] at h
    subst h
    simp
  | succ n ih =>
    intro i dev d h hc
    obtain ⟨vs, -, h2⟩ := xfer_loop_succ k hw polls control n i dev d h
    have hk1 := frameDone_kept hw dev i vs
    have hfb : frameByte (frameDone hw dev i vs).ctx = frameByte dev.ctx :=
      frameByte_congr hk1.2.1 hk1.2.2.1
    have hc1 : (frameDone hw dev i vs).base.CTRL &&& k.USART_CTRL_LOOPBK =
        k.USART_CTRL_LOOPBK := by
      rw [hk1.1.1]; exact hc
    have hmid : hw.RXDATA (frameMid dev i vs) = frameByte dev.ctx i := by
      rw [hl (frameMid dev i vs) hc, frameMid_txWrites]
      simp
    rw [ih (i + 1) _ d h2 hc1, hfb, frameDone_rxReads, hmid, List.range'_succ]
    simp

theorem getD_map_range_zero (f : Nat → Nat) (n j : Nat) (hj : j < n) :
    ((List.range' 0 n).map f).getD j 0 = f j := by
  rw [List.getD_eq_getElem?_getD, List.getElem?_map, List.getElem?_range' _ _ hj]
  simp

/-! ## Theorems about `spi_gecko_transceive` -/

/-- C1, the code at a rejected descriptor: the descriptor has word size 16,
`spi_config` returns `-ENOTSUP` for it, and `spi_gecko_transceive` returns 0,
has set up the buffers, has written the byte 0xAA to the transmit register and
has stored the received byte in the receive buffer. -/
theorem spi_gecko_transceive_after_rejection :
    ¬ Supported gecko ⟨1000000, opWord16, 0⟩ ∧
    (spi_config gecko dev0 ⟨1000000, opWord16, 0⟩).1 = -(gecko.ENOTSUP : Int) ∧
    (spi_gecko_transceive gecko hwReady 1 dev0 ⟨1000000, opWord16, 0⟩
        (singleBuf (fun _ => 0xAA) 1) (singleBuf (fun _ => 0xEE) 1)).map
      (fun r => (r.1, r.2.ctx.tx_len, r.2.ctx.rx_len, txWrites r.2.base.log,
        r.2.ctx.rx_buf 0)) = some (0, 1, 1, [0xAA], 0x5A) := by
  decide

/-! ## The pin router `spi_gecko_init_pins` -/

theorem shiftLeft_u8_lt (x s : Nat) (hx : x < 256) (hs : s ≤ 24) : x <<< s < 2 ^ 32 := by
  rw [Nat.shiftLeft_eq]
  calc x * 2 ^ s < 256 * 2 ^ s := Nat.mul_lt_mul_of_pos_right hx (Nat.two_pow_pos s)
    _ ≤ 256 * 2 ^ 24 := Nat.mul_le_mul_left _ (Nat.pow_le_pow_right (by norm_num) hs)
    _ = 2 ^ 32 := by norm_num

theorem routeLoc0_lt (k : Header) (dev : device) (hk : k.RouteBits) (hl : dev.LocCodes) :
    routeLoc0 k dev < 2 ^ 32 := by
  obtain ⟨s1, s2, s3, s4, -⟩ := hk
  obtain ⟨l1, l2, l3, l4⟩ := hl
  unfold routeLoc0
  exact Nat.or_lt_two_pow (Nat.or_lt_two_pow (Nat.or_lt_two_pow
    (shiftLeft_u8_lt _ _ l1 s1) (shiftLeft_u8_lt _ _ l2 s2))
    (shiftLeft_u8_lt _ _ l3 s3)) (shiftLeft_u8_lt _ _ l4 s4)

theorem routePen_lt (k : Header) (hk : k.RouteBits) : routePen k < 2 ^ 32 := by
  obtain ⟨-, -, -, -, -, p1, p2, p3, p4⟩ := hk
  unfold routePen
  exact Nat.or_lt_two_pow (Nat.or_lt_two_pow (Nat.or_lt_two_pow p1 p2) p3) p4

theorem spi_gecko_init_pins_base (k : Header) (dev : device) :
    (spi_gecko_init_pins k dev).base =
      { dev.base with
        ROUTEPEN := u32 (routePen k)
        ROUTELOC0 := u32 (routeLoc0 k dev)
        ROUTELOC1 := u32 k.USART_ROUTELOC1_RESETVALUE
        log := dev.base.log ++
          [Access.write Reg.ROUTEPEN 0,
           Access.write Reg.ROUTELOC0 (u32 (routeLoc0 k dev)),
           Access.write Reg.ROUTELOC1 (u32 k.USART_ROUTELOC1_RESETVALUE),
           Access.write Reg.ROUTEPEN (u32 (routePen k))] } := by
  simp [spi_gecko_init_pins, USART_TypeDef.setROUTEPEN, USART_TypeDef.setROUTELOC0,
    USART_TypeDef.setROUTELOC1, routeLoc0, routePen, u32]

/-- C12: for every pin binding with 8-bit location codes and every prior
register state, after `spi_gecko_init_pins` the route-location register equals
the bitwise OR of the four codes, each shifted to its field (TX, RX, CLK, CS),
the secondary location register equals its reset value, and the route-enable
register equals exactly the OR of the four enable bits RX, TX, CLK and CS; the
other registers keep their values. -/
theorem spi_gecko_init_pins_registers (k : Header) (dev : device)
    (hk : k.RouteBits) (hl : dev.LocCodes) :
    (spi_gecko_init_pins k dev).base.ROUTELOC0 =
      ((dev.loc_tx <<< k.USART_ROUTELOC0_TXLOC_SHIFT) |||
       (dev.loc_rx <<< k.USART_ROUTELOC0_RXLOC_SHIFT) |||
       (dev.loc_clk <<< k.USART_ROUTELOC0_CLKLOC_SHIFT) |||
       (dev.loc_cs <<< k.USART_ROUTELOC0_CSLOC_SHIFT)) ∧
    (spi_gecko_init_pins k dev).base.ROUTELOC1 = k.USART_ROUTELOC1_RESETVALUE ∧
    (spi_gecko_init_pins k dev).base.ROUTEPEN =
      (k.USART_ROUTEPEN_RXPEN ||| k.USART_ROUTEPEN_TXPEN |||
        k.USART_ROUTEPEN_CLKPEN ||| k.USART_ROUTEPEN_CSPEN) ∧
    (spi_gecko_init_pins k dev).base.CTRL = dev.base.CTRL ∧
    (spi_gecko_init_pins k dev).base.FRAME = dev.base.FRAME ∧
    (spi_gecko_init_pins k dev).base.CMD = dev.base.CMD := by
  rw [spi_gecko_init_pins_base]
  refine ⟨?_, ?_, ?_, rfl, rfl, rfl⟩
  · exact u32_of_lt (routeLoc0_lt k dev hk hl)
  · exact u32_of_lt hk.2.2.2.2.1
  · exact u32_of_lt (routePen_lt k hk)

theorem spi_gecko_init_pins_registers_witness :
    (gecko.RouteBits ∧ devRouted.LocCodes) ∧
    ((spi_gecko_init_pins gecko devRouted).base.ROUTELOC0 =
      ((devRouted.loc_tx <<< gecko.USART_ROUTELOC0_TXLOC_SHIFT) |||
       (devRouted.loc_rx <<< gecko.USART_ROUTELOC0_RXLOC_SHIFT) |||
       (devRouted.loc_clk <<< gecko.USART_ROUTELOC0_CLKLOC_SHIFT) |||
       (devRouted.loc_cs <<< gecko.USART_ROUTELOC0_CSLOC_SHIFT)) ∧
     (spi_gecko_init_pins gecko devRouted).base.ROUTELOC1 = gecko.USART_ROUTELOC1_RESETVALUE ∧
     (spi_gecko_init_pins gecko devRouted).base.ROUTEPEN =
      (gecko.USART_ROUTEPEN_RXPEN ||| gecko.USART_ROUTEPEN_TXPEN |||
        gecko.USART_ROUTEPEN_CLKPEN ||| gecko.USART_ROUTEPEN_CSPEN) ∧
     (spi_gecko_init_pins gecko devRouted).base.CTRL = devRouted.base.CTRL ∧
     (spi_gecko_init_pins gecko devRouted).base.FRAME = devRouted.base.FRAME ∧
     (spi_gecko_init_pins gecko devRouted).base.CMD = devRouted.base.CMD) ∧
    ((spi_gecko_init_pins gecko devRouted).base.ROUTELOC0 = 0x0C0D0B0A ∧
     (spi_gecko_init_pins gecko devRouted).base.ROUTELOC1 = 0 ∧
     (spi_gecko_init_pins gecko devRouted).base.ROUTEPEN = 0xF) :=
  ⟨⟨by decide, by decide⟩,
   spi_gecko_init_pins_registers gecko devRouted (by decide) (by decide),
   by decide⟩

/-- C17: for every prior register state, the register accesses of
`spi_gecko_init_pins` are, in this order, the write of 0 to the route-enable
register, the write of `ROUTELOC0`, the write of `ROUTELOC1`, and the write of
the four enable bits to the route-enable register: the route-enable register
is written to 0 before any route-location register is written, and no
route-location register is written while it holds a non-zero value. -/
theorem spi_gecko_init_pins_disables_first (k : Header) (dev : device) :
    (spi_gecko_init_pins k dev).base.log = dev.base.log ++
      [Access.write Reg.ROUTEPEN 0,
       Access.write Reg.ROUTELOC0 (u32 (routeLoc0 k dev)),
       Access.write Reg.ROUTELOC1 (u32 k.USART_ROUTELOC1_RESETVALUE),
       Access.write Reg.ROUTEPEN (u32 (routePen k))] ∧
    locWritesDisabled dev.base.ROUTEPEN
      [Access.write Reg.ROUTEPEN 0,
       Access.write Reg.ROUTELOC0 (u32 (routeLoc0 k dev)),
       Access.write Reg.ROUTELOC1 (u32 k.USART_ROUTELOC1_RESETVALUE),
       Access.write Reg.ROUTEPEN (u32 (routePen k))] = true := by
  rw [spi_gecko_init_pins_base]
  exact ⟨rfl, rfl⟩

/-! ## The register effect of an accepted `spi_config` -/

theorem ctrlAfter_eq_mid (k : Header) (ctrl : Nat) (c : struct_spi_config) :
    ctrlAfter k ctrl c = u32 (ctrlMid k ctrl c ||| k.USART_CTRL_AUTOCS) := by
  unfold ctrlAfter ctrlMid
  split_ifs <;> rfl

theorem spi_config_accepted_eq (k : Header) (dev : device) (c : struct_spi_config)
    (h : Supported k c) :
    spi_config k dev c =
      (0, { dev with
            base := { dev.base with
                      CTRL := ctrlAfter k dev.base.CTRL c
                      FRAME := frameAfter k c
                      log := dev.base.log ++ configAccesses k dev.base.CTRL c } }) := by
  obtain ⟨h1, h2, h3, h4, h5, h6, ⟨h7a, h7b⟩, h8⟩ := h
  have h7 : c.operation &&& (k.SPI_MODE_CPOL ||| k.SPI_MODE_CPHA) = 0 :=
    (and_lor_eq_zero_iff _ _ _).2 ⟨h7a, h7b⟩
  have h1n : ¬ (c.slave ≠ 0 ∧ c.slave ≥ SPI_MAX_CS_SIZE) := by
    simp only [SPI_MAX_CS_SIZE]; omega
  unfold spi_config
  simp only [h1n, h2, h3, h4, h5, h6, h7, h8, if_false, ne_eq, not_true_eq_false,
    USART_TypeDef.getCTRL, USART_TypeDef.setCTRL, USART_TypeDef.setFRAME,
    USART_TypeDef.note, configAccesses, ctrlAfter_eq_mid, frameAfter, ctrlMid]
  by_cases hl : c.operation &&& k.SPI_MODE_LOOP = 0 <;> simp [hl]

theorem ctrlAfter_testBit (k : Header) (ctrl : Nat) (c : struct_spi_config) (i : Nat)
    (hi : i < 32) (hl : k.USART_CTRL_LOOPBK.testBit i = false)
    (ha : k.USART_CTRL_AUTOCS.testBit i = false) :
    (ctrlAfter k ctrl c).testBit i = ctrl.testBit i := by
  unfold ctrlAfter
  split_ifs <;>
    simp [testBit_u32, testBit_not32, Nat.testBit_or, Nat.testBit_and, hi, hl, ha]

/-- C11, as the claim states it, fails: for an accepted descriptor the frame
register and the control register after `spi_config` differ from their values
before the call. -/
theorem spi_config_accepted_changes_registers :
    Supported gecko ⟨1000000, opWord8, 0⟩ ∧
    (spi_config gecko dev0 ⟨1000000, opWord8, 0⟩).2.base.FRAME ≠ dev0.base.FRAME ∧
    (spi_config gecko dev0 ⟨1000000, opWord8, 0⟩).2.base.CTRL ≠ dev0.base.CTRL ∧
    ¬ (spi_config gecko dev0 ⟨1000000, opWord8, 0⟩).2.base.sameRegs dev0.base := by
  decide

/-- C11, amended: `spi_config` leaves the registers as they were only when it
rejects the descriptor.  For every accepted descriptor and every prior
register state it makes the register writes itself: it returns 0 and its
accesses are, in this order, the read and write of `CTRL` for the loopback
bit, the write of `FRAME`, and the read and write of `CTRL` for the
auto-chip-select bit; the other registers keep their values. -/
theorem spi_config_writes_registers (k : Header) (dev : device) (c : struct_spi_config) :
    (¬ Supported k c → (spi_config k dev c).2.base = dev.base) ∧
    (Supported k c →
      (spi_config k dev c).1 = 0 ∧
      (spi_config k dev c).2.base.log =
        dev.base.log ++ configAccesses k dev.base.CTRL c ∧
      (spi_config k dev c).2.base.CTRL = ctrlAfter k dev.base.CTRL c ∧
      (spi_config k dev c).2.base.FRAME = frameAfter k c ∧
      (spi_config k dev c).2.base.ROUTEPEN = dev.base.ROUTEPEN ∧
      (spi_config k dev c).2.base.ROUTELOC0 = dev.base.ROUTELOC0 ∧
      (spi_config k dev c).2.base.ROUTELOC1 = dev.base.ROUTELOC1 ∧
      (spi_config k dev c).2.base.CMD = dev.base.CMD) := by
  constructor
  · intro h
    obtain ⟨msg, hm⟩ := spi_config_rejected k dev c h
    rw [hm]
    rfl
  · intro h
    rw [spi_config_accepted_eq k dev c h]
    exact ⟨rfl, rfl, rfl, rfl, rfl, rfl, rfl, rfl⟩

theorem spi_config_writes_registers_witness :
    (¬ Supported gecko ⟨1000000, opWord16, 0⟩ ∧ Supported gecko ⟨1000000, opWord8, 0⟩) ∧
    (spi_config gecko dev0 ⟨1000000, opWord16, 0⟩).2.base = dev0.base ∧
    ((spi_config gecko dev0 ⟨1000000, opWord8, 0⟩).1 = 0 ∧
      (spi_config gecko dev0 ⟨1000000, opWord8, 0⟩).2.base.log =
        dev0.base.log ++ configAccesses gecko dev0.base.CTRL ⟨1000000, opWord8, 0⟩ ∧
      (spi_config gecko dev0 ⟨1000000, opWord8, 0⟩).2.base.CTRL =
        ctrlAfter gecko dev0.base.CTRL ⟨1000000, opWord8, 0⟩ ∧
      (spi_config gecko dev0 ⟨1000000, opWord8, 0⟩).2.base.FRAME =
        frameAfter gecko ⟨1000000, opWord8, 0⟩ ∧
      (spi_config gecko dev0 ⟨1000000, opWord8, 0⟩).2.base.ROUTEPEN = dev0.base.ROUTEPEN ∧
      (spi_config gecko dev0 ⟨1000000, opWord8, 0⟩).2.base.ROUTELOC0 = dev0.base.ROUTELOC0 ∧
      (spi_config gecko dev0 ⟨1000000, opWord8, 0⟩).2.base.ROUTELOC1 = dev0.base.ROUTELOC1 ∧
      (spi_config gecko dev0 ⟨1000000, opWord8, 0⟩).2.base.CMD = dev0.base.CMD) :=
  ⟨⟨by decide, by decide⟩,
   (spi_config_writes_registers gecko dev0 ⟨1000000, opWord16, 0⟩).1 (by decide),
   (spi_config_writes_registers gecko dev0 ⟨1000000, opWord8, 0⟩).2 (by decide)⟩

/-- C18: for every accepted descriptor and every prior value of the control
register, `spi_config` changes only the loopback bit and the auto-chip-select
bit of `CTRL`: every bit of the 32-bit register outside the two masks has the
same value after the call as before it. -/
theorem spi_config_ctrl_other_bits (k : Header) (dev : device) (c : struct_spi_config)
    (hs : Supported k c) :
    (∀ i, i < 32 → k.USART_CTRL_LOOPBK.testBit i = false →
      k.USART_CTRL_AUTOCS.testBit i = false →
      (spi_config k dev c).2.base.CTRL.testBit i = dev.base.CTRL.testBit i) ∧
    (spi_config k dev c).2.base.CTRL &&& not32 (k.USART_CTRL_LOOPBK ||| k.USART_CTRL_AUTOCS) =
      dev.base.CTRL &&& not32 (k.USART_CTRL_LOOPBK ||| k.USART_CTRL_AUTOCS) := by
  have hc : (spi_config k dev c).2.base.CTRL = ctrlAfter k dev.base.CTRL c := by
    rw [spi_config_accepted_eq k dev c hs]
  rw [hc]
  constructor
  · intro i hi hl ha
    exact ctrlAfter_testBit k _ c i hi hl ha
  · apply Nat.eq_of_testBit_eq
    intro i
    simp only [Nat.testBit_and, testBit_not32, Nat.testBit_or]
    by_cases hi : i < 32
    · cases hl : k.USART_CTRL_LOOPBK.testBit i
      · cases ha : k.USART_CTRL_AUTOCS.testBit i
        · rw [ctrlAfter_testBit k _ c i hi hl ha]
        · simp
      · simp
    · simp [hi]

theorem spi_config_ctrl_other_bits_witness :
    Supported gecko ⟨1000000, opWord8, 0⟩ ∧
    ((∀ i, i < 32 → gecko.USART_CTRL_LOOPBK.testBit i = false →
      gecko.USART_CTRL_AUTOCS.testBit i = false →
      (spi_config gecko { dev0 with base := { base0 with CTRL := 0xA5A5A5A7 } }
        ⟨1000000, opWord8, 0⟩).2.base.CTRL.testBit i =
        ({ dev0 with base := { base0 with CTRL := 0xA5A5A5A7 } } : device).base.CTRL.testBit i) ∧
     (spi_config gecko { dev0 with base := { base0 with CTRL := 0xA5A5A5A7 } }
        ⟨1000000, opWord8, 0⟩).2.base.CTRL &&&
        not32 (gecko.USART_CTRL_LOOPBK ||| gecko.USART_CTRL_AUTOCS) =
      ({ dev0 with base := { base0 with CTRL := 0xA5A5A5A7 } } : device).base.CTRL &&&
        not32 (gecko.USART_CTRL_LOOPBK ||| gecko.USART_CTRL_AUTOCS)) ∧
    (spi_config gecko { dev0 with base := { base0 with CTRL := 0xA5A5A5A7 } }
        ⟨1000000, opWord8, 0⟩).2.base.CTRL = 0xA5A5A5A5 :=
  ⟨by decide,
   spi_config_ctrl_other_bits gecko { dev0 with base := { base0 with CTRL := 0xA5A5A5A7 } }
     ⟨1000000, opWord8, 0⟩ (by decide),
   by decide⟩

/-- C19: the result and the register effect of `spi_config` depend only on the
operation bits it tests and on the chip-select index being below 3: for any
two accepted descriptors with the same loopback flag (they may differ in
chip-select index, in clock frequency and in operation bits that `spi_config`
does not test) and the same prior state, the two calls return the same value
and produce the same register block, `CTRL` and `FRAME` among it. -/
theorem spi_config_same_for_accepted (k : Header) (dev : device)
    (c1 c2 : struct_spi_config) (h1 : Supported k c1) (h2 : Supported k c2)
    (hl : LoopRequested k c1 ↔ LoopRequested k c2) :
    spi_config k dev c1 = spi_config k dev c2 ∧
    (spi_config k dev c1).1 = (spi_config k dev c2).1 ∧
    (spi_config k dev c1).2.base.CTRL = (spi_config k dev c2).2.base.CTRL ∧
    (spi_config k dev c1).2.base.FRAME = (spi_config k dev c2).2.base.FRAME := by
  have hmid : ctrlMid k dev.base.CTRL c1 = ctrlMid k dev.base.CTRL c2 := by
    unfold ctrlMid
    by_cases hr : LoopRequested k c1
    · have hr2 := hl.1 hr
      unfold LoopRequested at hr hr2
      rw [if_pos hr, if_pos hr2]
    · have hr2 := fun h => hr (hl.2 h)
      unfold LoopRequested at hr hr2
      rw [if_neg hr, if_neg hr2]
  have hfr : frameAfter k c1 = frameAfter k c2 := by
    unfold frameAfter
    rw [h1.2.1, h2.2.1]
  have heq : spi_config k dev c1 = spi_config k dev c2 := by
    rw [spi_config_accepted_eq k dev c1 h1, spi_config_accepted_eq k dev c2 h2]
    simp only [configAccesses, ctrlAfter_eq_mid, hmid, hfr]
  exact ⟨heq, by rw [heq], by rw [heq], by rw [heq]⟩

theorem spi_config_same_for_accepted_witness :
    (Supported gecko ⟨1000000, opWord8, 0⟩ ∧ Supported gecko ⟨500000, opWord8Hold, 2⟩ ∧
      (LoopRequested gecko ⟨1000000, opWord8, 0⟩ ↔
        LoopRequested gecko ⟨500000, opWord8Hold, 2⟩)) ∧
    (spi_config gecko dev0 ⟨1000000, opWord8, 0⟩ =
        spi_config gecko dev0 ⟨500000, opWord8Hold, 2⟩ ∧
     (spi_config gecko dev0 ⟨1000000, opWord8, 0⟩).1 =
        (spi_config gecko dev0 ⟨500000, opWord8Hold, 2⟩).1 ∧
     (spi_config gecko dev0 ⟨1000000, opWord8, 0⟩).2.base.CTRL =
        (spi_config gecko dev0 ⟨500000, opWord8Hold, 2⟩).2.base.CTRL ∧
     (spi_config gecko dev0 ⟨1000000, opWord8, 0⟩).2.base.FRAME =
        (spi_config gecko dev0 ⟨500000, opWord8Hold, 2⟩).2.base.FRAME) :=
  ⟨⟨by decide, by decide, by decide⟩,
   spi_config_same_for_accepted gecko dev0 ⟨1000000, opWord8, 0⟩ ⟨500000, opWord8Hold, 2⟩
     (by decide) (by decide) (by decide)⟩

theorem spi_config_ctx (k : Header) (dev : device) (c : struct_spi_config) :
    (spi_config k dev c).2.ctx = dev.ctx := by
  by_cases h : Supported k c
  · rw [spi_config_accepted_eq k dev c h]
  · obtain ⟨msg, hm⟩ := spi_config_rejected k dev c h
    rw [hm]
    rfl

/-! ## The order of the data accesses -/

theorem dataAccesses_append (a b : List Access) :
    dataAccesses (a ++ b) = dataAccesses a ++ dataAccesses b := by
  simp [dataAccesses]

theorem dataAccesses_status (vs : List Nat) :
    dataAccesses (vs.map (Access.read Reg.STATUS)) = [] := by
  induction vs with
  | nil => rfl
  | cons v vs ih => simp [dataAccesses, Access.isData]

theorem frameDone_dataAccesses (hw : Hardware) (dev : device) (i : Nat) (vs : List Nat) :
    dataAccesses (frameDone hw dev i vs).base.log =
      dataAccesses dev.base.log ++
        [Access.write Reg.TXDATA (frameByte dev.ctx i),
         Access.read Reg.RXDATA (hw.RXDATA (frameMid dev i vs))] := by
  have h0 : (frameDone hw dev i vs).base.log =
      dev.base.log ++ ([Access.write Reg.TXDATA (frameByte dev.ctx i)] ++
        (vs.map (Access.read Reg.STATUS) ++
          [Access.read Reg.RXDATA (hw.RXDATA (frameMid dev i vs))])) := by
    simp [frameDone, USART_TypeDef.note, frameMid]
  rw [h0, dataAccesses_append, dataAccesses_append, dataAccesses_append, dataAccesses_status]
  simp [dataAccesses, Access.isData]

/-- The data accesses of the frame loop, whenever it ends. -/
theorem xfer_loop_dataAccesses (k : Header) (hw : Hardware) (polls control : Nat) :
    ∀ (n i : Nat) (dev d : device), xfer_loop k hw polls control n i dev = some d →
      ∃ R : List Nat, R.length = n ∧
        rxReads d.base.log = rxReads dev.base.log ++ R ∧
        dataAccesses d.base.log = dataAccesses dev.base.log ++
          frameAccesses ((List.range' i n).map (frameByte dev.ctx)) R := by
  intro n
  induction n with
  | zero =>
    intro i dev d h
    simp only [xfer_loop, Option.some.injEq] at h
    subst h
    exact ⟨[], rfl, by simp, by simp [frameAccesses]⟩
  | succ n ih =>
    intro i dev d h
    obtain ⟨vs, -, h2⟩ := xfer_loop_succ k hw polls control n i dev d h
    obtain ⟨R, hlen, hrx, hda⟩ := ih (i + 1) _ d h2
    have hk1 := frameDone_kept hw dev i vs
    have hfb : frameByte (frameDone hw dev i vs).ctx = frameByte dev.ctx :=
      frameByte_congr hk1.2.1 hk1.2.2.1
    refine ⟨hw.RXDATA (frameMid dev i vs) :: R, by simp [hlen], ?_, ?_⟩
    · rw [hrx, frameDone_rxReads]
      simp
    · rw [hda, hfb, frameDone_dataAccesses, List.range'_succ]
      simp [frameAccesses]

/-! ## The busy wait and the status of the peripheral -/

theorem wait_txc_of_first (k : Header) (hw : Hardware) :
    ∀ (j : Nat) (u : USART_TypeDef) (polls : Nat), FirstTxcAt k hw u j → j < polls →
      wait_txc k hw polls u = some (pollState hw (j + 1) u) := by
  intro j
  induction j with
  | zero =>
    intro u polls hf hlt
    obtain ⟨p, rfl⟩ : ∃ p, polls = p + 1 := ⟨polls - 1, by omega⟩
    have h0 : hw.STATUS u &&& k.USART_STATUS_TXC ≠ 0 := hf.2
    simp only [wait_txc, h0, ne_eq, not_false_eq_true, if_true]
    rfl
  | succ j ih =>
    intro u polls hf hlt
    obtain ⟨p, rfl⟩ : ∃ p, polls = p + 1 := ⟨polls - 1, by omega⟩
    have h0 : hw.STATUS u &&& k.USART_STATUS_TXC = 0 := hf.1 0 (Nat.succ_pos j)
    have hnext : FirstTxcAt k hw (u.note (Access.read Reg.STATUS (hw.STATUS u))) j :=
      ⟨fun i hi => hf.1 (i + 1) (by omega), hf.2⟩
    simp only [wait_txc, h0, ne_eq, not_true_eq_false, if_false]
    exact ih _ p hnext (by omega)

theorem first_of_wait_txc (k : Header) (hw : Hardware) :
    ∀ (polls : Nat) (u r : USART_TypeDef), wait_txc k hw polls u = some r →
      ∃ j, j < polls ∧ FirstTxcAt k hw u j ∧ r = pollState hw (j + 1) u := by
  intro polls
  induction polls with
  | zero => intro u r h; simp [wait_txc] at h
  | succ p ih =>
    intro u r h
    simp only [wait_txc] at h
    split_ifs at h with hb
    · refine ⟨0, Nat.succ_pos p, ⟨fun i hi => absurd hi (Nat.not_lt_zero i), hb⟩, ?_⟩
      simp only [Option.some.injEq] at h
      rw [← h]
      rfl
    · obtain ⟨j, hj, hf, hr⟩ := ih _ r h
      have hb0 : hw.STATUS u &&& k.USART_STATUS_TXC = 0 := not_not.1 hb
      refine ⟨j + 1, by omega, ⟨?_, hf.2⟩, hr⟩
      intro i hi
      cases i with
      | zero => exact hb0
      | succ i => exact hf.1 i (by omega)

theorem FirstTxcAt_unique (k : Header) (hw : Hardware) (u : USART_TypeDef) (a b : Nat)
    (ha : FirstTxcAt k hw u a) (hb : FirstTxcAt k hw u b) : a = b := by
  rcases Nat.lt_trichotomy a b with h | h | h
  · exact absurd (hb.1 a h) ha.2
  · exact h
  · exact absurd (ha.1 b h) hb.2

theorem wait_txc_never (k : Header) (hw : Hardware) (u : USART_TypeDef)
    (h : NeverTxc k hw u) : ∀ polls, wait_txc k hw polls u = none := by
  intro polls
  cases hw2 : wait_txc k hw polls u with
  | none => rfl
  | some r =>
    obtain ⟨j, -, hf, -⟩ := first_of_wait_txc k hw polls u r hw2
    exact absurd (h j) hf.2

/-- The frame at index `i` ends exactly when the transmit-complete bit is
observed after the write of its byte; the block afterwards is the block after
that frame. -/
theorem xfer_frame_first (k : Header) (hw : Hardware) (polls control i : Nat)
    (dev d : device) (h : xfer_frame k hw polls control i dev = some d) :
    ∃ j, j < polls ∧ FirstTxcAt k hw (USART_Tx dev.base (frameByte dev.ctx i)) j ∧
      d.base = blockAfterFrame hw dev.base (frameByte dev.ctx i) j ∧ Kept dev d := by
  obtain ⟨vs, hvs⟩ := xfer_frame_result k hw polls control i dev d h
  have hk : Kept dev d := by rw [hvs]; exact frameDone_kept hw dev i vs
  rw [xfer_frame_eq] at h
  simp only [Option.map_eq_some'] at h
  obtain ⟨b, hb, hd⟩ := h
  obtain ⟨j, hj, hf, hr⟩ := first_of_wait_txc k hw polls _ b hb
  refine ⟨j, hj, hf, ?_, hk⟩
  rw [← hd, hr]
  unfold spi_gecko_recv blockAfterFrame
  split_ifs <;> rfl

theorem xfer_frame_of_first (k : Header) (hw : Hardware) (control i j : Nat) (dev : device)
    (hf : FirstTxcAt k hw (USART_Tx dev.base (frameByte dev.ctx i)) j) :
    ∃ d, xfer_frame k hw (j + 1) control i dev = some d ∧
      d.base = blockAfterFrame hw dev.base (frameByte dev.ctx i) j ∧ Kept dev d := by
  have hw2 := wait_txc_of_first k hw j _ (j + 1) hf (Nat.lt_succ_self j)
  have hsome : ∃ d, xfer_frame k hw (j + 1) control i dev = some d := by
    rw [xfer_frame_eq, hw2]
    exact ⟨_, rfl⟩
  obtain ⟨d, hd⟩ := hsome
  obtain ⟨j2, -, hf2, hbase, hk⟩ := xfer_frame_first k hw (j + 1) control i dev d hd
  have hjj : j2 = j := FirstTxcAt_unique k hw _ j2 j hf2 hf
  rw [hjj] at hbase
  exact ⟨d, hd, hbase, hk⟩

theorem xfer_loop_mono (k : Header) (hw : Hardware) (control : Nat) :
    ∀ (n i polls : Nat) (dev d : device), xfer_loop k hw polls control n i dev = some d →
      ∀ more, polls ≤ more → xfer_loop k hw more control n i dev = some d := by
  intro n
  induction n with
  | zero =>
    intro i polls dev d h more _
    simpa [xfer_loop] using h
  | succ n ih =>
    intro i polls dev d h more hle
    obtain ⟨vs, h1, h2⟩ := xfer_loop_succ k hw polls control n i dev d h
    have hf := xfer_frame_mono k hw polls control i dev _ h1 more hle
    simp only [xfer_loop, hf, Option.some_bind]
    exact ih (i + 1) polls _ d h2 more hle

/-- When the frame loop ends, the peripheral has reported transmit-complete
for every frame. -/
theorem xfer_loop_frames_complete (k : Header) (hw : Hardware) (control : Nat) :
    ∀ (n i polls : Nat) (dev d : device), xfer_loop k hw polls control n i dev = some d →
      FramesComplete k hw ((List.range' i n).map (frameByte dev.ctx)) dev.base := by
  intro n
  induction n with
  | zero =>
    intro i polls dev d _
    simp [FramesComplete]
  | succ n ih =>
    intro i polls dev d h
    simp only [xfer_loop, Option.bind_eq_some] at h
    obtain ⟨d1, h1, h2⟩ := h
    obtain ⟨j, -, hf, hbase, hk⟩ := xfer_frame_first k hw polls control i dev d1 h1
    have hfb : frameByte d1.ctx = frameByte dev.ctx := frameByte_congr hk.2.1 hk.2.2.1
    have hrest := ih (i + 1) polls d1 d h2
    rw [hfb, hbase] at hrest
    rw [List.range'_succ, List.map_cons]
    exact ⟨j, hf, hrest⟩

/-- When the peripheral reports transmit-complete for every frame, the frame
loop ends with enough polls allowed, and more polls give the same result. -/
theorem xfer_loop_returns (k : Header) (hw : Hardware) (control : Nat) :
    ∀ (n i : Nat) (dev : device),
      FramesComplete k hw ((List.range' i n).map (frameByte dev.ctx)) dev.base →
      ∃ polls d, ∀ more, polls ≤ more → xfer_loop k hw more control n i dev = some d := by
  intro n
  induction n with
  | zero =>
    intro i dev _
    exact ⟨0, dev, fun _ _ => rfl⟩
  | succ n ih =>
    intro i dev hc
    rw [List.range'_succ, List.map_cons] at hc
    obtain ⟨j, hf, hrest⟩ := hc
    obtain ⟨d1, hd1, hbase, hk⟩ := xfer_frame_of_first k hw control i j dev hf
    have hfb : frameByte d1.ctx = frameByte dev.ctx := frameByte_congr hk.2.1 hk.2.2.1
    rw [← hbase, ← hfb] at hrest
    obtain ⟨p2, d2, h2⟩ := ih (i + 1) d1 hrest
    refine ⟨max (j + 1) p2, d2, ?_⟩
    intro more hle
    have hfm := xfer_frame_mono k hw (j + 1) control i dev d1 hd1 more
      (le_trans (le_max_left _ _) hle)
    simp only [xfer_loop, hfm, Option.some_bind]
    exact h2 more (le_trans (le_max_right _ _) hle)

theorem not_FramesComplete_of_never (k : Header) (hw : Hardware) :
    ∀ (bs : List Nat) (u : USART_TypeDef), SomeFrameNeverTxc k hw bs u →
      ¬ FramesComplete k hw bs u := by
  intro bs
  induction bs with
  | nil => intro u h; exact absurd h (by simp [SomeFrameNeverTxc])
  | cons b bs ih =>
    intro u h hc
    obtain ⟨j, hf, hrest⟩ := hc
    rcases h with hn | ⟨j2, hf2, hn⟩
    · exact hf.2 (hn j)
    · have hjj : j2 = j := FirstTxcAt_unique k hw _ j2 j hf2 hf
      rw [hjj] at hn
      exact ih _ hn hrest

theorem xferBytes_eq (ctx : spi_context) :
    xferBytes ctx = (List.range' 0 (max ctx.tx_len ctx.rx_len)).map (frameByte ctx) := by
  unfold xferBytes
  rw [List.range_eq_range']
  rfl

theorem FramesComplete.nil (k : Header) (hw : Hardware) (u : USART_TypeDef) :
    FramesComplete k hw [] u := trivial

theorem FramesComplete.cons (k : Header) (hw : Hardware) (u : USART_TypeDef) (b : Nat)
    (bs : List Nat) (j : Nat) (hf : FirstTxcAt k hw (USART_Tx u b) j)
    (hrest : FramesComplete k hw bs (blockAfterFrame hw u b j)) :
    FramesComplete k hw (b :: bs) u := ⟨j, hf, hrest⟩

/-- The result of `spi_gecko_xfer` is the result of the frame loop with the
context marked complete. -/
theorem spi_gecko_xfer_eq_some (k : Header) (hw : Hardware) (polls : Nat) (dev d : device)
    (config : struct_spi_config) (control : Nat)
    (h : spi_gecko_xfer k hw polls dev config control = some d) :
    ∃ e, xfer_loop k hw polls control (max dev.ctx.tx_len dev.ctx.rx_len) 0 dev = some e ∧
      d = { e with ctx := spi_context_complete e.ctx 0 } := by
  unfold spi_gecko_xfer spi_context_longest_current_buf at h
  simp only [Option.map_eq_some'] at h
  obtain ⟨e, he, hd⟩ := h
  exact ⟨e, he, hd.symm⟩

theorem spi_gecko_xfer_returns (k : Header) (hw : Hardware) (dev : device)
    (config : struct_spi_config) (control : Nat)
    (h : FramesComplete k hw (xferBytes dev.ctx) dev.base) :
    ∃ polls e,
      (∀ more, polls ≤ more →
        xfer_loop k hw more control (max dev.ctx.tx_len dev.ctx.rx_len) 0 dev = some e) ∧
      (∀ more, polls ≤ more →
        spi_gecko_xfer k hw more dev config control =
          some { e with ctx := spi_context_complete e.ctx 0 }) := by
  rw [xferBytes_eq] at h
  obtain ⟨p, e, he⟩ := xfer_loop_returns k hw control _ 0 dev h
  refine ⟨p, e, he, ?_⟩
  intro more hle
  simp [spi_gecko_xfer, spi_context_longest_current_buf, he more hle]

/-! ## Peripherals used for evaluation -/

/-- A peripheral whose status has the transmit-complete bit set at the first
poll after every write of `TXDATA` reports transmit-complete for every frame
of every sequence of bytes. -/
theorem FramesComplete_of_txc_after_write (k : Header) (hw : Hardware)
    (h : ∀ u b, hw.STATUS (USART_Tx u b) &&& k.USART_STATUS_TXC ≠ 0) :
    ∀ (bs : List Nat) (u : USART_TypeDef), FramesComplete k hw bs u := by
  intro bs
  induction bs with
  | nil => intro u; trivial
  | cons b bs ih =>
    intro u
    exact ⟨0, ⟨fun i hi => absurd hi (Nat.not_lt_zero i), h u b⟩, ih _⟩

theorem txWrites_USART_Tx (u : USART_TypeDef) (b : Nat) :
    (txWrites (USART_Tx u b).log).isEmpty = false := by
  have h : txWrites (USART_Tx u b).log = txWrites u.log ++ [u8 b] := by
    simp [USART_Tx, USART_TypeDef.note, txWrites, Access.txByte]
  rw [h]
  cases txWrites u.log <;> rfl

theorem hwReady_complete (bs : List Nat) (u : USART_TypeDef) :
    FramesComplete gecko hwReady bs u :=
  FramesComplete_of_txc_after_write gecko hwReady
    (fun _ _ => by show (0x2020 &&& 0x20 : Nat) ≠ 0; decide) bs u

theorem hwIdleUntilWrite_complete (bs : List Nat) (u : USART_TypeDef) :
    FramesComplete gecko hwIdleUntilWrite bs u :=
  FramesComplete_of_txc_after_write gecko hwIdleUntilWrite
    (fun u b => by
      show (if (txWrites (USART_Tx u b).log).isEmpty then 0x2040 else 0x2060) &&& 0x20 ≠ 0
      rw [txWrites_USART_Tx]
      decide) bs u

theorem hwLoopIdle_complete (bs : List Nat) (u : USART_TypeDef) :
    FramesComplete gecko hwLoopIdle bs u :=
  FramesComplete_of_txc_after_write gecko hwLoopIdle
    (fun u b => by
      show (if (txWrites (USART_Tx u b).log).isEmpty then 0x2040 else 0x2060) &&& 0x20 ≠ 0
      rw [txWrites_USART_Tx]
      decide) bs u

theorem hwLoopIdle_loops : LoopsBack gecko hwLoopIdle := fun _ _ => rfl

/-! ## Theorems about the transfer engine -/

theorem spi_gecko_xfer_txWrites (k : Header) (hw : Hardware) (polls : Nat) (dev d : device)
    (config : struct_spi_config) (control : Nat)
    (h : spi_gecko_xfer k hw polls dev config control = some d) :
    txWrites d.base.log = txWrites dev.base.log ++ xferBytes dev.ctx := by
  obtain ⟨e, he, hd⟩ := spi_gecko_xfer_eq_some k hw polls dev d config control h
  obtain ⟨-, htx, -⟩ := xfer_loop_result k hw polls control _ 0 dev e he
  rw [hd, xferBytes_eq]
  exact htx

theorem xferBytes_length (ctx : spi_context) :
    (xferBytes ctx).length = max ctx.tx_len ctx.rx_len := by
  simp [xferBytes]

/-- C4: for every transfer context with transmit length `tx_len` and receive
length `rx_len`, on a peripheral that reports transmit-complete for every
frame of the transfer (after the write of each byte, the transmit-complete bit
of `STATUS` is observed set after finitely many polls), `spi_gecko_xfer`
returns and has written exactly `max tx_len rx_len` bytes to the transmit
register; the `i`-th of them is the byte `tx_buf[i]` when `i < tx_len` and the
dummy byte 0 otherwise.  Every run that returns has written these bytes. -/
theorem spi_gecko_xfer_tx_bytes (k : Header) (hw : Hardware) (dev : device)
    (config : struct_spi_config) (control : Nat)
    (h : FramesComplete k hw (xferBytes dev.ctx) dev.base) :
    (∃ polls d,
      (∀ more, polls ≤ more → spi_gecko_xfer k hw more dev config control = some d) ∧
      txWrites d.base.log = txWrites dev.base.log ++
        (List.range (max dev.ctx.tx_len dev.ctx.rx_len)).map
          (fun i => if i < dev.ctx.tx_len then u8 (dev.ctx.tx_buf i) else 0) ∧
      (txWrites d.base.log).length =
        (txWrites dev.base.log).length + max dev.ctx.tx_len dev.ctx.rx_len) ∧
    (∀ polls d, spi_gecko_xfer k hw polls dev config control = some d →
      txWrites d.base.log = txWrites dev.base.log ++
        (List.range (max dev.ctx.tx_len dev.ctx.rx_len)).map
          (fun i => if i < dev.ctx.tx_len then u8 (dev.ctx.tx_buf i) else 0) ∧
      (txWrites d.base.log).length =
        (txWrites dev.base.log).length + max dev.ctx.tx_len dev.ctx.rx_len) := by
  have hall : ∀ polls d, spi_gecko_xfer k hw polls dev config control = some d →
      txWrites d.base.log = txWrites dev.base.log ++
        (List.range (max dev.ctx.tx_len dev.ctx.rx_len)).map
          (fun i => if i < dev.ctx.tx_len then u8 (dev.ctx.tx_buf i) else 0) ∧
      (txWrites d.base.log).length =
        (txWrites dev.base.log).length + max dev.ctx.tx_len dev.ctx.rx_len := by
    intro polls d hd
    have htx := spi_gecko_xfer_txWrites k hw polls dev d config control hd
    refine ⟨htx, ?_⟩
    rw [htx, List.length_append, xferBytes_length]
  obtain ⟨p, e, -, hx⟩ := spi_gecko_xfer_returns k hw dev config control h
  exact ⟨⟨p, _, hx, hall p _ (hx p le_rfl)⟩, hall⟩

theorem spi_gecko_xfer_tx_bytes_witness :
    FramesComplete gecko hwIdleUntilWrite
      (xferBytes ({ dev0 with ctx := ctxRx4 } : device).ctx)
      ({ dev0 with ctx := ctxRx4 } : device).base ∧
    ((∃ polls d,
      (∀ more, polls ≤ more →
        spi_gecko_xfer gecko hwIdleUntilWrite more { dev0 with ctx := ctxRx4 }
          ⟨1000000, opWord8, 0⟩ 0 = some d) ∧
      txWrites d.base.log = txWrites ({ dev0 with ctx := ctxRx4 } : device).base.log ++
        (List.range (max ({ dev0 with ctx := ctxRx4 } : device).ctx.tx_len
            ({ dev0 with ctx := ctxRx4 } : device).ctx.rx_len)).map
          (fun i => if i < ({ dev0 with ctx := ctxRx4 } : device).ctx.tx_len then
            u8 (({ dev0 with ctx := ctxRx4 } : device).ctx.tx_buf i) else 0) ∧
      (txWrites d.base.log).length =
        (txWrites ({ dev0 with ctx := ctxRx4 } : device).base.log).length +
          max ({ dev0 with ctx := ctxRx4 } : device).ctx.tx_len
            ({ dev0 with ctx := ctxRx4 } : device).ctx.rx_len) ∧
     (∀ polls d, spi_gecko_xfer gecko hwIdleUntilWrite polls { dev0 with ctx := ctxRx4 }
          ⟨1000000, opWord8, 0⟩ 0 = some d →
      txWrites d.base.log = txWrites ({ dev0 with ctx := ctxRx4 } : device).base.log ++
        (List.range (max ({ dev0 with ctx := ctxRx4 } : device).ctx.tx_len
            ({ dev0 with ctx := ctxRx4 } : device).ctx.rx_len)).map
          (fun i => if i < ({ dev0 with ctx := ctxRx4 } : device).ctx.tx_len then
            u8 (({ dev0 with ctx := ctxRx4 } : device).ctx.tx_buf i) else 0) ∧
      (txWrites d.base.log).length =
        (txWrites ({ dev0 with ctx := ctxRx4 } : device).base.log).length +
          max ({ dev0 with ctx := ctxRx4 } : device).ctx.tx_len
            ({ dev0 with ctx := ctxRx4 } : device).ctx.rx_len)) ∧
    hwIdleUntilWrite.STATUS base0 &&& gecko.USART_STATUS_TXC = 0 ∧
    (spi_gecko_xfer gecko hwIdleUntilWrite 1 { dev0 with ctx := ctxRx4 }
        ⟨1000000, opWord8, 0⟩ 0).map
      (fun d => txWrites d.base.log) = some [0, 0, 0, 0] :=
  ⟨hwIdleUntilWrite_complete _ _,
   spi_gecko_xfer_tx_bytes gecko hwIdleUntilWrite { dev0 with ctx := ctxRx4 }
     ⟨1000000, opWord8, 0⟩ 0 (hwIdleUntilWrite_complete _ _),
   by decide, by decide⟩

/-- C5: for every transfer with transmit length `tx_len` and receive length
`rx_len`, after `spi_gecko_xfer` has finished, `max tx_len rx_len` frames have
been clocked (that many writes of the transmit register and reads of the
receive register), position `i` of the receive buffer holds the byte read in
frame `i` for every `i < rx_len`, and every position at an index `≥ rx_len`
keeps its prior value.  The engine does finish on a peripheral that reports
transmit-complete for every frame of the transfer. -/
theorem spi_gecko_xfer_rx_buffer (k : Header) (hw : Hardware) (dev : device)
    (config : struct_spi_config) (control : Nat) :
    (∀ polls d, spi_gecko_xfer k hw polls dev config control = some d →
      ∃ R : List Nat,
        R.length = max dev.ctx.tx_len dev.ctx.rx_len ∧
        rxReads d.base.log = rxReads dev.base.log ++ R ∧
        (txWrites d.base.log).length =
          (txWrites dev.base.log).length + max dev.ctx.tx_len dev.ctx.rx_len ∧
        (∀ i, i < dev.ctx.rx_len → d.ctx.rx_buf i = u8 (R.getD i 0)) ∧
        (∀ i, dev.ctx.rx_len ≤ i → d.ctx.rx_buf i = dev.ctx.rx_buf i)) ∧
    (FramesComplete k hw (xferBytes dev.ctx) dev.base →
      ∃ polls d, ∀ more, polls ≤ more →
        spi_gecko_xfer k hw more dev config control = some d) := by
  constructor
  · intro polls d hd
    obtain ⟨e, he, hde⟩ := spi_gecko_xfer_eq_some k hw polls dev d config control hd
    obtain ⟨-, htx, R, hlen, hrx, hbuf⟩ := xfer_loop_result k hw polls control _ 0 dev e he
    subst hde
    refine ⟨R, hlen, hrx, ?_, ?_, ?_⟩
    · show (txWrites e.base.log).length = _
      rw [htx]
      simp
    · intro i hi
      show e.ctx.rx_buf i = _
      have c : 0 ≤ i ∧ i < 0 + max dev.ctx.tx_len dev.ctx.rx_len ∧ i < dev.ctx.rx_len :=
        ⟨Nat.zero_le _, by omega, hi⟩
      rw [hbuf i, if_pos c, Nat.sub_zero]
    · intro i hi
      show e.ctx.rx_buf i = _
      have c : ¬ (0 ≤ i ∧ i < 0 + max dev.ctx.tx_len dev.ctx.rx_len ∧ i < dev.ctx.rx_len) := by
        omega
      rw [hbuf i, if_neg c]
  · intro h
    obtain ⟨p, e, -, hx⟩ := spi_gecko_xfer_returns k hw dev config control h
    exact ⟨p, _, hx⟩

theorem spi_gecko_xfer_rx_buffer_witness :
    (∃ d, spi_gecko_xfer gecko hwIdleUntilWrite 1 { dev0 with ctx := ctxTx5Rx3 }
        ⟨1000000, opWord8, 0⟩ 0 = some d ∧
      ∃ R : List Nat,
        R.length = max ({ dev0 with ctx := ctxTx5Rx3 } : device).ctx.tx_len
          ({ dev0 with ctx := ctxTx5Rx3 } : device).ctx.rx_len ∧
        rxReads d.base.log = rxReads ({ dev0 with ctx := ctxTx5Rx3 } : device).base.log ++ R ∧
        (txWrites d.base.log).length =
          (txWrites ({ dev0 with ctx := ctxTx5Rx3 } : device).base.log).length +
            max ({ dev0 with ctx := ctxTx5Rx3 } : device).ctx.tx_len
              ({ dev0 with ctx := ctxTx5Rx3 } : device).ctx.rx_len ∧
        (∀ i, i < ({ dev0 with ctx := ctxTx5Rx3 } : device).ctx.rx_len →
          d.ctx.rx_buf i = u8 (R.getD i 0)) ∧
        (∀ i, ({ dev0 with ctx := ctxTx5Rx3 } : device).ctx.rx_len ≤ i →
          d.ctx.rx_buf i = ({ dev0 with ctx := ctxTx5Rx3 } : device).ctx.rx_buf i)) ∧
    FramesComplete gecko hwIdleUntilWrite
      (xferBytes ({ dev0 with ctx := ctxTx5Rx3 } : device).ctx)
      ({ dev0 with ctx := ctxTx5Rx3 } : device).base ∧
    (∃ polls d, ∀ more, polls ≤ more →
      spi_gecko_xfer gecko hwIdleUntilWrite more { dev0 with ctx := ctxTx5Rx3 }
        ⟨1000000, opWord8, 0⟩ 0 = some d) ∧
    (spi_gecko_xfer gecko hwIdleUntilWrite 1 { dev0 with ctx := ctxTx5Rx3 }
        ⟨1000000, opWord8, 0⟩ 0).map
      (fun d => (txWrites d.base.log, rxReads d.base.log,
        (List.range 5).map d.ctx.rx_buf)) =
      some ([1, 2, 3, 4, 5], [0x5A, 0x5A, 0x5A, 0x5A, 0x5A], [0x5A, 0x5A, 0x5A, 0xEE, 0xEE]) :=
  ⟨by
     obtain ⟨d, hd⟩ := Option.isSome_iff_exists.1
       (by decide : (spi_gecko_xfer gecko hwIdleUntilWrite 1 { dev0 with ctx := ctxTx5Rx3 }
         ⟨1000000, opWord8, 0⟩ 0).isSome = true)
     exact ⟨d, hd, (spi_gecko_xfer_rx_buffer gecko hwIdleUntilWrite
       { dev0 with ctx := ctxTx5Rx3 } ⟨1000000, opWord8, 0⟩ 0).1 1 d hd⟩,
   hwIdleUntilWrite_complete _ _,
   (spi_gecko_xfer_rx_buffer gecko hwIdleUntilWrite { dev0 with ctx := ctxTx5Rx3 }
     ⟨1000000, opWord8, 0⟩ 0).2 (hwIdleUntilWrite_complete _ _),
   by decide⟩

/-- C15: the frame loop is strictly byte-interleaved.  For every transfer,
also a transmit-only one with receive length 0, when `spi_gecko_xfer` has
finished its accesses to the data registers are write, read, write, read, ...:
one read of the receive register after each write of the transmit register,
`max tx_len rx_len` of each; the bytes read at an index `≥ rx_len` are not
stored (those positions of the receive memory keep their values).  The engine
does finish on a peripheral that reports transmit-complete for every frame of
the transfer. -/
theorem spi_gecko_xfer_interleaved (k : Header) (hw : Hardware) (dev : device)
    (config : struct_spi_config) (control : Nat) :
    (∀ polls d, spi_gecko_xfer k hw polls dev config control = some d →
      ∃ R : List Nat,
        R.length = max dev.ctx.tx_len dev.ctx.rx_len ∧
        dataAccesses d.base.log = dataAccesses dev.base.log ++
          frameAccesses
            ((List.range (max dev.ctx.tx_len dev.ctx.rx_len)).map
              (fun i => if i < dev.ctx.tx_len then u8 (dev.ctx.tx_buf i) else 0)) R ∧
        (rxReads d.base.log).length =
          (rxReads dev.base.log).length + max dev.ctx.tx_len dev.ctx.rx_len ∧
        (txWrites d.base.log).length =
          (txWrites dev.base.log).length + max dev.ctx.tx_len dev.ctx.rx_len ∧
        (∀ i, dev.ctx.rx_len ≤ i → d.ctx.rx_buf i = dev.ctx.rx_buf i)) ∧
    (FramesComplete k hw (xferBytes dev.ctx) dev.base →
      ∃ polls d, ∀ more, polls ≤ more →
        spi_gecko_xfer k hw more dev config control = some d) := by
  constructor
  · intro polls d hd
    obtain ⟨e, he, hde⟩ := spi_gecko_xfer_eq_some k hw polls dev d config control hd
    obtain ⟨R, hlen, hrx, hda⟩ := xfer_loop_dataAccesses k hw polls control _ 0 dev e he
    obtain ⟨-, htx, R2, -, -, hbuf⟩ := xfer_loop_result k hw polls control _ 0 dev e he
    subst hde
    refine ⟨R, hlen, ?_, ?_, ?_, ?_⟩
    · show dataAccesses e.base.log = _
      rw [hda, List.range_eq_range']
      rfl
    · show (rxReads e.base.log).length = _
      rw [hrx, List.length_append, hlen]
    · show (txWrites e.base.log).length = _
      rw [htx]
      simp
    · intro i hi
      show e.ctx.rx_buf i = _
      have c : ¬ (0 ≤ i ∧ i < 0 + max dev.ctx.tx_len dev.ctx.rx_len ∧ i < dev.ctx.rx_len) := by
        omega
      rw [hbuf i, if_neg c]
  · intro h
    obtain ⟨p, e, -, hx⟩ := spi_gecko_xfer_returns k hw dev config control h
    exact ⟨p, _, hx⟩

theorem spi_gecko_xfer_interleaved_witness :
    (∃ d, spi_gecko_xfer gecko hwIdleUntilWrite 1 { dev0 with ctx := ctxTx2Rx0 }
        ⟨1000000, opWord8, 0⟩ 0 = some d ∧
      ∃ R : List Nat,
        R.length = max ({ dev0 with ctx := ctxTx2Rx0 } : device).ctx.tx_len
          ({ dev0 with ctx := ctxTx2Rx0 } : device).ctx.rx_len ∧
        dataAccesses d.base.log =
          dataAccesses ({ dev0 with ctx := ctxTx2Rx0 } : device).base.log ++
          frameAccesses
            ((List.range (max ({ dev0 with ctx := ctxTx2Rx0 } : device).ctx.tx_len
                ({ dev0 with ctx := ctxTx2Rx0 } : device).ctx.rx_len)).map
              (fun i => if i < ({ dev0 with ctx := ctxTx2Rx0 } : device).ctx.tx_len then
                u8 (({ dev0 with ctx := ctxTx2Rx0 } : device).ctx.tx_buf i) else 0)) R ∧
        (rxReads d.base.log).length =
          (rxReads ({ dev0 with ctx := ctxTx2Rx0 } : device).base.log).length +
            max ({ dev0 with ctx := ctxTx2Rx0 } : device).ctx.tx_len
              ({ dev0 with ctx := ctxTx2Rx0 } : device).ctx.rx_len ∧
        (txWrites d.base.log).length =
          (txWrites ({ dev0 with ctx := ctxTx2Rx0 } : device).base.log).length +
            max ({ dev0 with ctx := ctxTx2Rx0 } : device).ctx.tx_len
              ({ dev0 with ctx := ctxTx2Rx0 } : device).ctx.rx_len ∧
        (∀ i, ({ dev0 with ctx := ctxTx2Rx0 } : device).ctx.rx_len ≤ i →
          d.ctx.rx_buf i = ({ dev0 with ctx := ctxTx2Rx0 } : device).ctx.rx_buf i)) ∧
    FramesComplete gecko hwIdleUntilWrite
      (xferBytes ({ dev0 with ctx := ctxTx2Rx0 } : device).ctx)
      ({ dev0 with ctx := ctxTx2Rx0 } : device).base ∧
    (∃ polls d, ∀ more, polls ≤ more →
      spi_gecko_xfer gecko hwIdleUntilWrite more { dev0 with ctx := ctxTx2Rx0 }
        ⟨1000000, opWord8, 0⟩ 0 = some d) ∧
    (spi_gecko_xfer gecko hwIdleUntilWrite 1 { dev0 with ctx := ctxTx2Rx0 }
        ⟨1000000, opWord8, 0⟩ 0).map
      (fun d => (dataAccesses d.base.log, (List.range 2).map d.ctx.rx_buf)) =
      some ([Access.write Reg.TXDATA 0x40, Access.read Reg.RXDATA 0x5A,
             Access.write Reg.TXDATA 0x41, Access.read Reg.RXDATA 0x5A], [0xEE, 0xEE]) :=
  ⟨by
     obtain ⟨d, hd⟩ := Option.isSome_iff_exists.1
       (by decide : (spi_gecko_xfer gecko hwIdleUntilWrite 1 { dev0 with ctx := ctxTx2Rx0 }
         ⟨1000000, opWord8, 0⟩ 0).isSome = true)
     exact ⟨d, hd, (spi_gecko_xfer_interleaved gecko hwIdleUntilWrite
       { dev0 with ctx := ctxTx2Rx0 } ⟨1000000, opWord8, 0⟩ 0).1 1 d hd⟩,
   hwIdleUntilWrite_complete _ _,
   (spi_gecko_xfer_interleaved gecko hwIdleUntilWrite { dev0 with ctx := ctxTx2Rx0 }
     ⟨1000000, opWord8, 0⟩ 0).2 (hwIdleUntilWrite_complete _ _),
   by decide⟩

/-! ## Completion of the frame loop -/

theorem hwNever_never (u : USART_TypeDef) : NeverTxc gecko hwNever u := by
  intro j
  show (0 : Nat) &&& 0x20 = 0
  decide

/-- C16: with the status of the peripheral taken as the sequence of values
observed by successive polls, the frame loop runs to completion if and only if
in every frame the transmit-complete bit of the status is observed set after
finitely many polls.  Under that condition `spi_gecko_xfer` returns after
exactly `max tx_len rx_len` frames (that many writes of the transmit register
and reads of the receive register) with the context marked complete and status
0; and if in some frame the bit is never observed set, `spi_gecko_xfer`
returns for no number of polls: the wait has no other exit. -/
theorem spi_gecko_xfer_completes_iff (k : Header) (hw : Hardware) (dev : device)
    (config : struct_spi_config) (control : Nat) :
    ((∃ polls, (spi_gecko_xfer k hw polls dev config control).isSome = true) ↔
      FramesComplete k hw (xferBytes dev.ctx) dev.base) ∧
    (FramesComplete k hw (xferBytes dev.ctx) dev.base →
      ∃ polls d,
        (∀ more, polls ≤ more → spi_gecko_xfer k hw more dev config control = some d) ∧
        d.ctx.completed = true ∧ d.ctx.sync_status = 0 ∧
        (txWrites d.base.log).length =
          (txWrites dev.base.log).length + max dev.ctx.tx_len dev.ctx.rx_len ∧
        (rxReads d.base.log).length =
          (rxReads dev.base.log).length + max dev.ctx.tx_len dev.ctx.rx_len) ∧
    (SomeFrameNeverTxc k hw (xferBytes dev.ctx) dev.base →
      ∀ polls, spi_gecko_xfer k hw polls dev config control = none) := by
  have hfinish : FramesComplete k hw (xferBytes dev.ctx) dev.base →
      ∃ polls d,
        (∀ more, polls ≤ more → spi_gecko_xfer k hw more dev config control = some d) ∧
        d.ctx.completed = true ∧ d.ctx.sync_status = 0 ∧
        (txWrites d.base.log).length =
          (txWrites dev.base.log).length + max dev.ctx.tx_len dev.ctx.rx_len ∧
        (rxReads d.base.log).length =
          (rxReads dev.base.log).length + max dev.ctx.tx_len dev.ctx.rx_len := by
    intro hc
    obtain ⟨p, e, he, hx⟩ := spi_gecko_xfer_returns k hw dev config control hc
    obtain ⟨-, htx, R, hlen, hrx, -⟩ :=
      xfer_loop_result k hw p control _ 0 dev e (he p le_rfl)
    refine ⟨p, { e with ctx := spi_context_complete e.ctx 0 }, hx, rfl, rfl, ?_, ?_⟩
    · show (txWrites e.base.log).length = _
      rw [htx]
      simp
    · show (rxReads e.base.log).length = _
      rw [hrx, List.length_append, hlen]
  have hiff : (∃ polls, (spi_gecko_xfer k hw polls dev config control).isSome = true) ↔
      FramesComplete k hw (xferBytes dev.ctx) dev.base := by
    constructor
    · rintro ⟨polls, hs⟩
      obtain ⟨d, hd⟩ := Option.isSome_iff_exists.1 hs
      obtain ⟨e, he, -⟩ := spi_gecko_xfer_eq_some k hw polls dev d config control hd
      rw [xferBytes_eq]
      exact xfer_loop_frames_complete k hw control _ 0 polls dev e he
    · intro hc
      obtain ⟨p, d, hx, -⟩ := hfinish hc
      exact ⟨p, by rw [hx p le_rfl]; rfl⟩
  refine ⟨hiff, hfinish, ?_⟩
  intro hnever polls
  cases hx : spi_gecko_xfer k hw polls dev config control with
  | none => rfl
  | some x =>
    exfalso
    exact not_FramesComplete_of_never k hw _ _ hnever (hiff.1 ⟨polls, by rw [hx]; rfl⟩)

theorem hwThird_frames :
    FramesComplete gecko hwThird (xferBytes ({ dev0 with ctx := ctxTx5Rx3 } : device).ctx)
      ({ dev0 with ctx := ctxTx5Rx3 } : device).base := by
  have hb : xferBytes ({ dev0 with ctx := ctxTx5Rx3 } : device).ctx = [1, 2, 3, 4, 5] := by
    decide
  rw [hb]
  exact FramesComplete.cons _ _ _ _ _ 2 (by decide)
    (FramesComplete.cons _ _ _ _ _ 2 (by decide)
      (FramesComplete.cons _ _ _ _ _ 2 (by decide)
        (FramesComplete.cons _ _ _ _ _ 2 (by decide)
          (FramesComplete.cons _ _ _ _ _ 2 (by decide) (FramesComplete.nil _ _ _)))))

theorem hwNever_frames :
    SomeFrameNeverTxc gecko hwNever (xferBytes ({ dev0 with ctx := ctxTx5Rx3 } : device).ctx)
      ({ dev0 with ctx := ctxTx5Rx3 } : device).base := by
  have hb : xferBytes ({ dev0 with ctx := ctxTx5Rx3 } : device).ctx = [1, 2, 3, 4, 5] := by
    decide
  rw [hb]
  exact Or.inl (hwNever_never _)

theorem spi_gecko_xfer_completes_iff_witness :
    (FramesComplete gecko hwThird (xferBytes ({ dev0 with ctx := ctxTx5Rx3 } : device).ctx)
        ({ dev0 with ctx := ctxTx5Rx3 } : device).base ∧
      SomeFrameNeverTxc gecko hwNever (xferBytes ({ dev0 with ctx := ctxTx5Rx3 } : device).ctx)
        ({ dev0 with ctx := ctxTx5Rx3 } : device).base) ∧
    (∃ polls d,
        (∀ more, polls ≤ more →
          spi_gecko_xfer gecko hwThird more { dev0 with ctx := ctxTx5Rx3 }
            ⟨1000000, opWord8, 0⟩ 0 = some d) ∧
        d.ctx.completed = true ∧ d.ctx.sync_status = 0 ∧
        (txWrites d.base.log).length =
          (txWrites ({ dev0 with ctx := ctxTx5Rx3 } : device).base.log).length +
            max ({ dev0 with ctx := ctxTx5Rx3 } : device).ctx.tx_len
              ({ dev0 with ctx := ctxTx5Rx3 } : device).ctx.rx_len ∧
        (rxReads d.base.log).length =
          (rxReads ({ dev0 with ctx := ctxTx5Rx3 } : device).base.log).length +
            max ({ dev0 with ctx := ctxTx5Rx3 } : device).ctx.tx_len
              ({ dev0 with ctx := ctxTx5Rx3 } : device).ctx.rx_len) ∧
    (∀ polls, spi_gecko_xfer gecko hwNever polls { dev0 with ctx := ctxTx5Rx3 }
        ⟨1000000, opWord8, 0⟩ 0 = none) ∧
    (spi_gecko_xfer gecko hwThird 3 { dev0 with ctx := ctxTx5Rx3 } ⟨1000000, opWord8, 0⟩ 0).map
      (fun d => (txWrites d.base.log, statusPolls d.base.log, d.ctx.completed,
        d.ctx.sync_status)) = some ([1, 2, 3, 4, 5], 15, true, 0) ∧
    (spi_gecko_xfer gecko hwThird 2 { dev0 with ctx := ctxTx5Rx3 } ⟨1000000, opWord8, 0⟩ 0).map
      (fun d => txWrites d.base.log) = none :=
  ⟨⟨hwThird_frames, hwNever_frames⟩,
   (spi_gecko_xfer_completes_iff gecko hwThird { dev0 with ctx := ctxTx5Rx3 }
      ⟨1000000, opWord8, 0⟩ 0).2.1 hwThird_frames,
   (spi_gecko_xfer_completes_iff gecko hwNever { dev0 with ctx := ctxTx5Rx3 }
      ⟨1000000, opWord8, 0⟩ 0).2.2 hwNever_frames,
   by decide, by decide⟩

/-! ## The steps of `spi_gecko_transceive` -/

theorem spi_context_buffers_setup_some (ctx ctx1 : spi_context)
    (tx_bufs rx_bufs : Option spi_buf_set) (n : Nat)
    (h : spi_context_buffers_setup ctx tx_bufs rx_bufs n = some ctx1) :
    ctx.lock_held = false ∧ ctx1.lock_held = true ∧
    ctx1.sync_status = ctx.sync_status ∧ ctx1.completed = ctx.completed := by
  unfold spi_context_buffers_setup at h
  split_ifs at h with hl
  simp only [Option.some.injEq] at h
  rw [← h]
  exact ⟨by simpa using hl, rfl, rfl, rfl⟩

theorem spi_context_buffers_setup_single (ctx : spi_context) (txb rxb : spi_buf) (n : Nat)
    (h : ctx.lock_held = false) :
    spi_context_buffers_setup ctx (some { buffers := [txb] }) (some { buffers := [rxb] }) n =
      some { ctx with
        lock_held := true, tx_buf := txb.buf, tx_len := txb.len,
        rx_buf := rxb.buf, rx_len := rxb.len } := by
  simp [spi_context_buffers_setup, h]

theorem spi_gecko_transceive_some (k : Header) (hw : Hardware) (polls : Nat) (dev : device)
    (c : struct_spi_config) (tx_bufs rx_bufs : Option spi_buf_set) (r : Int × device)
    (h : spi_gecko_transceive k hw polls dev c tx_bufs rx_bufs = some r) :
    ∃ ctx1 d,
      spi_context_buffers_setup (spi_config k dev c).2.ctx tx_bufs rx_bufs 1 = some ctx1 ∧
      spi_gecko_xfer k hw polls { (spi_config k dev c).2 with ctx := ctx1 } c 0 = some d ∧
      r = (0, d) := by
  unfold spi_gecko_transceive at h
  simp only [Option.bind_eq_some, Option.map_eq_some'] at h
  obtain ⟨ctx1, h1, d, h2, h3⟩ := h
  exact ⟨ctx1, d, h1, h2, h3.symm⟩

theorem spi_gecko_transceive_returns (k : Header) (hw : Hardware) (dev : device)
    (c : struct_spi_config) (tx_bufs rx_bufs : Option spi_buf_set) (ctx1 : spi_context)
    (hs : spi_context_buffers_setup (spi_config k dev c).2.ctx tx_bufs rx_bufs 1 = some ctx1)
    (hc : FramesComplete k hw (xferBytes ctx1) (spi_config k dev c).2.base) :
    ∃ polls d, ∀ more, polls ≤ more →
      spi_gecko_transceive k hw more dev c tx_bufs rx_bufs = some (0, d) := by
  obtain ⟨p, e, -, hx⟩ := spi_gecko_xfer_returns k hw
    { (spi_config k dev c).2 with ctx := ctx1 } c 0 hc
  refine ⟨p, { e with ctx := spi_context_complete e.ctx 0 }, ?_⟩
  intro more hle
  unfold spi_gecko_transceive
  simp only [hs, Option.some_bind, hx more hle, Option.map_some']

theorem txWrites_configAccesses (k : Header) (ctrl : Nat) (c : struct_spi_config) :
    txWrites (configAccesses k ctrl c) = [] := by
  simp [configAccesses, txWrites, Access.txByte]

theorem rxReads_configAccesses (k : Header) (ctrl : Nat) (c : struct_spi_config) :
    rxReads (configAccesses k ctrl c) = [] := by
  simp [configAccesses, rxReads, Access.rxValue]

/-! ## Theorems about `spi_gecko_transceive` and its buffers -/

theorem xferBytes_of_list (ctx : spi_context) (tx : List Nat)
    (htl : ctx.tx_len = tx.length) (hrl : ctx.rx_len = tx.length)
    (htb : ctx.tx_buf = fun i => tx.getD i 0) (hb : ∀ b ∈ tx, b < 256) :
    xferBytes ctx = tx := by
  unfold xferBytes
  rw [htl, hrl, max_self, htb]
  apply List.ext_getElem
  · simp
  · intro j h1 h2
    have hj : j < tx.length := h2
    have hbyte : tx[j] < 256 := hb _ (List.getElem_mem _)
    simp only [List.getElem_map, List.getElem_range, hj, if_true]
    rw [List.getD_eq_getElem _ _ hj]
    exact Nat.mod_eq_of_lt hbyte

/-- C6: loopback round trip.  For every byte sequence `tx`, a supported
descriptor with the loopback flag, and a peripheral that, while the loopback
bit of `CTRL` is set, returns on a read of `RXDATA` the byte last written to
`TXDATA`: a transceive with transmit buffer `tx` and a receive buffer of the
same length that has returned has returned 0 and has left the receive buffer
equal to `tx`, byte for byte and in the same order.  It does return when the
guard is free and the peripheral reports transmit-complete for every frame. -/
theorem spi_gecko_transceive_loopback (k : Header) (hw : Hardware) (dev : device)
    (c : struct_spi_config) (tx : List Nat) (rx0 : Nat → Nat)
    (hk : k.RegBits) (hs : Supported k c) (hreq : LoopRequested k c)
    (hl : LoopsBack k hw) (hb : ∀ b ∈ tx, b < 256) :
    (∀ polls r,
      spi_gecko_transceive k hw polls dev c (listBuf tx) (singleBuf rx0 tx.length) = some r →
      r.1 = 0 ∧ (List.range tx.length).map r.2.ctx.rx_buf = tx) ∧
    (dev.ctx.lock_held = false → FramesComplete k hw tx (spi_config k dev c).2.base →
      ∃ polls d,
        (∀ more, polls ≤ more →
          spi_gecko_transceive k hw more dev c (listBuf tx) (singleBuf rx0 tx.length) =
            some (0, d)) ∧
        (List.range tx.length).map d.ctx.rx_buf = tx) := by
  obtain ⟨-, hctrl, -, -, -⟩ := spi_config_accepted k dev c hs
  have hreq2 : c.operation &&& k.SPI_MODE_LOOP ≠ 0 := hreq
  rw [ctrlAfter, if_pos hreq2] at hctrl
  have hfacts : ∀ ctx1,
      spi_context_buffers_setup (spi_config k dev c).2.ctx (listBuf tx)
        (singleBuf rx0 tx.length) 1 = some ctx1 →
      ctx1.tx_len = tx.length ∧ ctx1.rx_len = tx.length ∧
      ctx1.tx_buf = fun i => tx.getD i 0 := by
    intro ctx1 h1
    have hfree := (spi_context_buffers_setup_some _ _ _ _ _ h1).1
    unfold listBuf singleBuf at h1
    rw [spi_context_buffers_setup_single _ _ _ _ hfree] at h1
    simp only [Option.some.injEq] at h1
    rw [← h1]
    exact ⟨rfl, rfl, rfl⟩
  have hpart1 : ∀ polls r,
      spi_gecko_transceive k hw polls dev c (listBuf tx) (singleBuf rx0 tx.length) = some r →
      r.1 = 0 ∧ (List.range tx.length).map r.2.ctx.rx_buf = tx := by
    intro polls r hr
    obtain ⟨ctx1, d, h1, h2, h3⟩ := spi_gecko_transceive_some k hw polls dev c _ _ r hr
    obtain ⟨htl, hrl, htb⟩ := hfacts ctx1 h1
    obtain ⟨e, he, hde⟩ := spi_gecko_xfer_eq_some k hw polls _ d c 0 h2
    have hmax : max ctx1.tx_len ctx1.rx_len = tx.length := by rw [htl, hrl, max_self]
    simp only [hmax] at he
    have hc2 : ({ (spi_config k dev c).2 with ctx := ctx1 } : device).base.CTRL &&&
        k.USART_CTRL_LOOPBK = k.USART_CTRL_LOOPBK := by
      show (spi_config k dev c).2.base.CTRL &&& _ = _
      rw [hctrl]
      exact ctrl_set_loop _ _ _ hk.1
    obtain ⟨-, -, R, -, hrx, hbuf⟩ := xfer_loop_result k hw polls 0 _ 0 _ e he
    have hrx2 := xfer_loop_loopback k hw hl polls 0 _ 0 _ e he hc2
    have hR : R = (List.range' 0 tx.length).map (frameByte ctx1) :=
      List.append_cancel_left (hrx.symm.trans hrx2)
    rw [h3, hde]
    refine ⟨rfl, ?_⟩
    show (List.range tx.length).map e.ctx.rx_buf = tx
    apply List.ext_getElem
    · simp
    · intro j h1 h2
      have hj : j < tx.length := h2
      have c1 : 0 ≤ j ∧ j < 0 + tx.length ∧ j < ctx1.rx_len := by omega
      have hbyte : tx[j] < 256 := hb _ (List.getElem_mem _)
      simp only [List.getElem_map, List.getElem_range]
      rw [hbuf j]
      show (if 0 ≤ j ∧ j < 0 + tx.length ∧ j < ctx1.rx_len then u8 (R.getD (j - 0) 0)
        else ctx1.rx_buf j) = tx[j]
      rw [if_pos c1, Nat.sub_zero, hR, getD_map_range_zero _ _ _ hj]
      simp only [frameByte, htl, hj, if_true, htb, u8_u8]
      rw [List.getD_eq_getElem _ _ hj]
      exact Nat.mod_eq_of_lt hbyte
  refine ⟨hpart1, ?_⟩
  intro hfree hc
  have hfree2 : (spi_config k dev c).2.ctx.lock_held = false := by
    rw [spi_config_ctx]; exact hfree
  have hsetup := spi_context_buffers_setup_single (spi_config k dev c).2.ctx
    { buf := fun i => tx.getD i 0, len := tx.length } { buf := rx0, len := tx.length } 1 hfree2
  have hsetup2 : spi_context_buffers_setup (spi_config k dev c).2.ctx (listBuf tx)
      (singleBuf rx0 tx.length) 1 = some _ := hsetup
  obtain ⟨htl, hrl, htb⟩ := hfacts _ hsetup2
  have hbytes := xferBytes_of_list _ tx htl hrl htb hb
  rw [← hbytes] at hc
  obtain ⟨p, d, hd⟩ := spi_gecko_transceive_returns k hw dev c _ _ _ hsetup2 hc
  exact ⟨p, d, hd, (hpart1 p (0, d) (hd p le_rfl)).2⟩

theorem spi_gecko_transceive_loopback_witness :
    (gecko.RegBits ∧ Supported gecko ⟨1000000, opWord8Loop, 0⟩ ∧
      LoopRequested gecko ⟨1000000, opWord8Loop, 0⟩ ∧
      LoopsBack gecko hwLoopIdle ∧ (∀ b ∈ [0x11, 0x22, 0x33], b < 256) ∧
      dev0.ctx.lock_held = false ∧
      FramesComplete gecko hwLoopIdle [0x11, 0x22, 0x33]
        (spi_config gecko dev0 ⟨1000000, opWord8Loop, 0⟩).2.base) ∧
    (∀ polls r,
      spi_gecko_transceive gecko hwLoopIdle polls dev0 ⟨1000000, opWord8Loop, 0⟩
        (listBuf [0x11, 0x22, 0x33]) (singleBuf (fun _ => 0xEE) [0x11, 0x22, 0x33].length) =
          some r →
      r.1 = 0 ∧ (List.range [0x11, 0x22, 0x33].length).map r.2.ctx.rx_buf =
        [0x11, 0x22, 0x33]) ∧
    (∃ polls d,
      (∀ more, polls ≤ more →
        spi_gecko_transceive gecko hwLoopIdle more dev0 ⟨1000000, opWord8Loop, 0⟩
          (listBuf [0x11, 0x22, 0x33]) (singleBuf (fun _ => 0xEE) [0x11, 0x22, 0x33].length) =
          some (0, d)) ∧
      (List.range [0x11, 0x22, 0x33].length).map d.ctx.rx_buf = [0x11, 0x22, 0x33]) ∧
    (spi_gecko_transceive gecko hwLoopIdle 1 dev0 ⟨1000000, opWord8Loop, 0⟩
        (listBuf [0x11, 0x22, 0x33]) (singleBuf (fun _ => 0xEE) 3)).map
      (fun r => (r.1, (List.range 3).map r.2.ctx.rx_buf)) = some (0, [0x11, 0x22, 0x33]) :=
  ⟨⟨by decide, by decide, by decide, hwLoopIdle_loops, by decide, rfl,
      hwLoopIdle_complete _ _⟩,
   (spi_gecko_transceive_loopback gecko hwLoopIdle dev0 ⟨1000000, opWord8Loop, 0⟩
     [0x11, 0x22, 0x33] (fun _ => 0xEE) (by decide) (by decide) (by decide)
     hwLoopIdle_loops (by decide)).1,
   (spi_gecko_transceive_loopback gecko hwLoopIdle dev0 ⟨1000000, opWord8Loop, 0⟩
     [0x11, 0x22, 0x33] (fun _ => 0xEE) (by decide) (by decide) (by decide)
     hwLoopIdle_loops (by decide)).2 rfl (hwLoopIdle_complete _ _),
   by decide⟩

/-- C8, as the claim states it, fails: a request whose transmit set has two
pairs is answered with 0 (success), not with an error, and only the byte of
the first pair has been sent. -/
theorem spi_gecko_transceive_two_pairs_success :
    (spi_gecko_transceive gecko hwReady 1 dev0 ⟨1000000, opWord8, 0⟩
        (some { buffers := [{ buf := fun _ => 0x11, len := 1 }, { buf := fun _ => 0x22, len := 1 }] })
        (singleBuf (fun _ => 0xEE) 1)).map
      (fun r => (r.1, txWrites r.2.base.log)) = some (0, [0x11]) := by
  decide

/-- C8, amended: for every transceive request with a supported descriptor in
which the transmit set and the receive set each contain exactly one
(pointer, length) pair, a transceive that has returned has returned 0 and has
transferred the pair in full: `max tx_len rx_len` frames, every byte of the
transmit buffer written (then dummy bytes), every position of the receive
buffer below its length stored and no other position changed.  It does return
when the guard is free and the peripheral reports transmit-complete for every
frame. -/
theorem spi_gecko_transceive_single_pair (k : Header) (hw : Hardware) (dev : device)
    (c : struct_spi_config) (txb rxb : spi_buf) (hs : Supported k c) :
    (∀ polls r,
      spi_gecko_transceive k hw polls dev c (some { buffers := [txb] })
        (some { buffers := [rxb] }) = some r →
      r.1 = 0 ∧
      txWrites r.2.base.log = txWrites dev.base.log ++
        (List.range (max txb.len rxb.len)).map
          (fun i => if i < txb.len then u8 (txb.buf i) else 0) ∧
      (∃ R : List Nat, R.length = max txb.len rxb.len ∧
        rxReads r.2.base.log = rxReads dev.base.log ++ R ∧
        ∀ i, i < rxb.len → r.2.ctx.rx_buf i = u8 (R.getD i 0)) ∧
      (∀ i, rxb.len ≤ i → r.2.ctx.rx_buf i = rxb.buf i)) ∧
    (dev.ctx.lock_held = false →
      FramesComplete k hw
        ((List.range (max txb.len rxb.len)).map
          (fun i => if i < txb.len then u8 (txb.buf i) else 0))
        (spi_config k dev c).2.base →
      ∃ polls d, ∀ more, polls ≤ more →
        spi_gecko_transceive k hw more dev c (some { buffers := [txb] })
          (some { buffers := [rxb] }) = some (0, d)) := by
  have hlog : (spi_config k dev c).2.base.log =
      dev.base.log ++ configAccesses k dev.base.CTRL c := by
    rw [spi_config_accepted_eq k dev c hs]
  constructor
  · intro polls r hr
    obtain ⟨ctx1, d, h1, h2, h3⟩ := spi_gecko_transceive_some k hw polls dev c _ _ r hr
    have hfree := (spi_context_buffers_setup_some _ _ _ _ _ h1).1
    rw [spi_context_buffers_setup_single _ _ _ _ hfree] at h1
    simp only [Option.some.injEq] at h1
    subst h1
    obtain ⟨e, he, hde⟩ := spi_gecko_xfer_eq_some k hw polls _ d c 0 h2
    obtain ⟨-, htx, R, hlen, hrx, hbuf⟩ := xfer_loop_result k hw polls 0 _ 0 _ e he
    rw [h3, hde]
    refine ⟨rfl, ?_, ⟨R, hlen, ?_, ?_⟩, ?_⟩
    · show txWrites e.base.log = _
      rw [htx]
      show txWrites (spi_config k dev c).2.base.log ++ _ = _
      rw [hlog, txWrites_append, txWrites_configAccesses, List.append_nil,
        List.range_eq_range']
      rfl
    · show rxReads e.base.log = _
      rw [hrx]
      show rxReads (spi_config k dev c).2.base.log ++ _ = _
      rw [hlog, rxReads_append, rxReads_configAccesses, List.append_nil]
    · intro i hi
      show e.ctx.rx_buf i = _
      have c1 : 0 ≤ i ∧ i < 0 + max txb.len rxb.len ∧ i < rxb.len :=
        ⟨Nat.zero_le _, by omega, hi⟩
      rw [hbuf i]
      show (if 0 ≤ i ∧ i < 0 + max txb.len rxb.len ∧ i < rxb.len then u8 (R.getD (i - 0) 0)
        else rxb.buf i) = _
      rw [if_pos c1, Nat.sub_zero]
    · intro i hi
      show e.ctx.rx_buf i = _
      have c1 : ¬ (0 ≤ i ∧ i < 0 + max txb.len rxb.len ∧ i < rxb.len) := by omega
      rw [hbuf i]
      show (if 0 ≤ i ∧ i < 0 + max txb.len rxb.len ∧ i < rxb.len then u8 (R.getD (i - 0) 0)
        else rxb.buf i) = _
      rw [if_neg c1]
  · intro hfree hc
    have hfree2 : (spi_config k dev c).2.ctx.lock_held = false := by
      rw [spi_config_ctx]; exact hfree
    exact spi_gecko_transceive_returns k hw dev c _ _ _
      (spi_context_buffers_setup_single _ txb rxb 1 hfree2) hc

theorem spi_gecko_transceive_single_pair_witness :
    (Supported gecko ⟨1000000, opWord8, 0⟩ ∧ dev0.ctx.lock_held = false ∧
      FramesComplete gecko hwIdleUntilWrite
        ((List.range (max 2 1)).map (fun i => if i < 2 then u8 (0x40 + i) else 0))
        (spi_config gecko dev0 ⟨1000000, opWord8, 0⟩).2.base) ∧
    (∀ polls r,
      spi_gecko_transceive gecko hwIdleUntilWrite polls dev0 ⟨1000000, opWord8, 0⟩
        (some { buffers := [{ buf := fun i => 0x40 + i, len := 2 }] })
        (some { buffers := [{ buf := fun _ => 0xEE, len := 1 }] }) = some r →
      r.1 = 0 ∧
      txWrites r.2.base.log = txWrites dev0.base.log ++
        (List.range (max 2 1)).map (fun i => if i < 2 then u8 (0x40 + i) else 0) ∧
      (∃ R : List Nat, R.length = max 2 1 ∧
        rxReads r.2.base.log = rxReads dev0.base.log ++ R ∧
        ∀ i, i < 1 → r.2.ctx.rx_buf i = u8 (R.getD i 0)) ∧
      (∀ i, 1 ≤ i → r.2.ctx.rx_buf i = 0xEE)) ∧
    (∃ polls d, ∀ more, polls ≤ more →
      spi_gecko_transceive gecko hwIdleUntilWrite more dev0 ⟨1000000, opWord8, 0⟩
        (some { buffers := [{ buf := fun i => 0x40 + i, len := 2 }] })
        (some { buffers := [{ buf := fun _ => 0xEE, len := 1 }] }) = some (0, d)) ∧
    (spi_gecko_transceive gecko hwIdleUntilWrite 1 dev0 ⟨1000000, opWord8, 0⟩
        (some { buffers := [{ buf := fun i => 0x40 + i, len := 2 }] })
        (some { buffers := [{ buf := fun _ => 0xEE, len := 1 }] })).map
      (fun r => (r.1, txWrites r.2.base.log, (List.range 2).map r.2.ctx.rx_buf)) =
      some (0, [0x40, 0x41], [0x5A, 0xEE]) :=
  ⟨⟨by decide, rfl, hwIdleUntilWrite_complete _ _⟩,
   (spi_gecko_transceive_single_pair gecko hwIdleUntilWrite dev0 ⟨1000000, opWord8, 0⟩
     { buf := fun i => 0x40 + i, len := 2 } { buf := fun _ => 0xEE, len := 1 }
     (by decide)).1,
   (spi_gecko_transceive_single_pair gecko hwIdleUntilWrite dev0 ⟨1000000, opWord8, 0⟩
     { buf := fun i => 0x40 + i, len := 2 } { buf := fun _ => 0xEE, len := 1 }
     (by decide)).2 rfl (hwIdleUntilWrite_complete _ _),
   by decide⟩

/-! ## The guard during a transceive -/

end SpiGecko
